import Mathlib

/-
Verification of the Noeta DSL compiler front end (noeta_lexer.py,
noeta_parser.py, noeta_semantic.py, noeta_errors.py, noeta_codegen.py,
noeta_runner.py) against its natural-language specification.

The development shallowly embeds the pipeline: the lexer is embedded in
full (complete token-kind enum and keyword table); the parser, semantic
analyzer and code generator are embedded for the statement kinds the
verified properties exercise (load via the plain-path branch, select,
filter with the full boolean-condition sub-grammar, describe, outliers);
dispatcher branches outside this fragment are mapped to a distinguished
`modelGap` outcome, never silently altered.  Python exceptions are
modelled by an explicit error type threaded through `Except`.
-/

namespace Noeta

/-! Token kinds, transcribed from the TokenType enum of noeta_lexer.py. -/
inductive TokenType where
  | LOAD
  | SELECT
  | FILTER
  | SORT
  | JOIN
  | GROUPBY
  | SAMPLE
  | DROPNA
  | FILLNA
  | MUTATE
  | APPLY
  | DESCRIBE
  | SUMMARY
  | OUTLIERS
  | QUANTILE
  | NORMALIZE
  | BINNING
  | ROLLING
  | HYPOTHESIS
  | BOXPLOT
  | HEATMAP
  | PAIRPLOT
  | TIMESERIES
  | PIE
  | SAVE
  | EXPORT_PLOT
  | INFO
  | UNIQUE
  | VALUE_COUNTS
  | SHOW
  | SELECT_BY_TYPE
  | HEAD
  | TAIL
  | ILOC
  | LOC
  | RENAME
  | REORDER
  | FILTER_BETWEEN
  | FILTER_ISIN
  | FILTER_CONTAINS
  | FILTER_STARTSWITH
  | FILTER_ENDSWITH
  | FILTER_REGEX
  | FILTER_NULL
  | FILTER_NOTNULL
  | FILTER_DUPLICATES
  | ROUND
  | ABS
  | SQRT
  | POWER
  | LOG
  | CEIL
  | FLOOR
  | UPPER
  | LOWER
  | STRIP
  | LSTRIP
  | RSTRIP
  | TITLE
  | CAPITALIZE
  | REPLACE
  | SPLIT
  | CONCAT
  | SUBSTRING
  | LENGTH
  | EXTRACT_REGEX
  | FIND
  | PARSE_DATETIME
  | EXTRACT
  | EXTRACT_YEAR
  | EXTRACT_MONTH
  | EXTRACT_DAY
  | EXTRACT_HOUR
  | EXTRACT_MINUTE
  | EXTRACT_SECOND
  | EXTRACT_DAYOFWEEK
  | EXTRACT_DAYOFYEAR
  | EXTRACT_WEEKOFYEAR
  | EXTRACT_QUARTER
  | DATE_DIFF
  | DATE_ADD
  | DATE_SUBTRACT
  | FORMAT_DATETIME
  | ASTYPE
  | TO_NUMERIC
  | ONE_HOT_ENCODE
  | LABEL_ENCODE
  | STANDARD_SCALE
  | MINMAX_SCALE
  | ISNULL
  | NOTNULL
  | COUNT_NA
  | FILL_FORWARD
  | FILL_BACKWARD
  | FILL_MEAN
  | FILL_MEDIAN
  | FILL_MODE
  | INTERPOLATE
  | DUPLICATED
  | COUNT_DUPLICATES
  | DROP_DUPLICATES
  | QCUT
  | CUT
  | SORT_INDEX
  | RANK
  | FILTER_GROUPS
  | GROUP_TRANSFORM
  | WINDOW_RANK
  | WINDOW_LAG
  | WINDOW_LEAD
  | ROLLING_MEAN
  | ROLLING_SUM
  | ROLLING_STD
  | ROLLING_MIN
  | ROLLING_MAX
  | EXPANDING_MEAN
  | EXPANDING_SUM
  | EXPANDING_MIN
  | EXPANDING_MAX
  | CUMSUM
  | CUMMAX
  | CUMMIN
  | CUMPROD
  | PCT_CHANGE
  | DIFF
  | SHIFT
  | PIVOT
  | PIVOT_TABLE
  | MELT
  | STACK
  | UNSTACK
  | TRANSPOSE
  | CROSSTAB
  | MERGE
  | CONCAT_VERTICAL
  | CONCAT_HORIZONTAL
  | UNION
  | INTERSECTION
  | DIFFERENCE
  | SET_INDEX
  | RESET_INDEX
  | APPLY_ROW
  | APPLY_COLUMN
  | APPLYMAP
  | MAP
  | MAP_VALUES
  | RESAMPLE
  | ASSIGN_CONST
  | ROBUST_SCALE
  | MAXABS_SCALE
  | ORDINAL_ENCODE
  | TARGET_ENCODE
  | ASSERT_UNIQUE
  | ASSERT_NO_NULLS
  | ASSERT_RANGE
  | REINDEX
  | SET_MULTIINDEX
  | ANY
  | ALL
  | COUNT_TRUE
  | COMPARE
  | CSV
  | JSON
  | EXCEL
  | PARQUET
  | SQL
  | AS
  | BY
  | WITH
  | ON
  | FROM
  | AGG
  | COMPUTE
  | COLUMN
  | COLUMNS
  | VALUE
  | VALUES
  | N
  | RANDOM
  | METHOD
  | Q
  | BINS
  | WINDOW
  | FUNCTION
  | TRANSFORM
  | VS
  | TEST
  | X
  | Y
  | LABELS
  | TO
  | FORMAT
  | FILENAME
  | WIDTH
  | HEIGHT
  | DESC
  | WHERE
  | ASC
  | TYPE
  | ROWS
  | MAPPING
  | ORDER
  | LIMIT
  | OFFSET
  | FIRST
  | LAST
  | MIN
  | MAX
  | PATTERN
  | KEEP
  | SUBSET
  | AND
  | OR
  | NOT
  | IN
  | BETWEEN
  | CONTAINS
  | STARTS_WITH
  | ENDS_WITH
  | MATCHES
  | IS
  | NULL
  | PART
  | DECIMALS
  | EXPONENT
  | BASE
  | SEPARATOR
  | UNIT
  | OLD
  | NEW
  | DELIMITER_STR
  | START
  | END
  | DTYPE_STR
  | ERRORS
  | STRATEGY
  | AXIS
  | ASCENDING
  | PERIODS
  | ID_VARS
  | VALUE_VARS
  | VAR_NAME
  | VALUE_NAME
  | LEFT
  | RIGHT
  | LEFT_ON
  | RIGHT_ON
  | SUFFIXES
  | HOW
  | AGGFUNC
  | FILL_VALUE
  | LEVEL
  | RULE
  | CONDITION
  | PCT
  | DROP
  | IGNORE_INDEX
  | DELIMITER
  | ENCODING
  | HEADER
  | NAMES
  | USECOLS
  | DTYPE
  | SKIPROWS
  | NROWS
  | NA_VALUES
  | THOUSANDS
  | DECIMAL
  | COMMENT_CHAR
  | SKIP_BLANK_LINES
  | PARSE_DATES
  | DATE_FORMAT
  | CHUNKSIZE
  | COMPRESSION
  | LOW_MEMORY
  | MEMORY_MAP
  | ORIENT
  | TYP
  | CONVERT_AXES
  | CONVERT_DATES
  | PRECISE_FLOAT
  | DATE_UNIT
  | LINES
  | SHEET
  | SHEET_NAME
  | INDEX_COL
  | ENGINE
  | CONVERTERS
  | SKIPFOOTER
  | FILTERS
  | USE_NULLABLE_DTYPES
  | STORAGE_OPTIONS
  | PARAMS
  | COERCE_FLOAT
  | INDEX
  | INDEX_LABEL
  | NA_REP
  | MODE
  | QUOTING
  | QUOTECHAR
  | ESCAPECHAR
  | LINETERMINATOR
  | FLOAT_FORMAT
  | TARGET
  | CHARS
  | GROUP
  | STRING_LITERAL
  | NUMERIC_LITERAL
  | BOOLEAN_LITERAL
  | IDENTIFIER
  | EQ
  | NEQ
  | LT
  | GT
  | LTE
  | GTE
  | ASSIGN
  | PLUS
  | MINUS
  | STAR
  | SLASH
  | PERCENT
  | DOT
  | LPAREN
  | RPAREN
  | LBRACE
  | RBRACE
  | LBRACKET
  | RBRACKET
  | COLON
  | COMMA
  | NEWLINE
  | EOF
  | COMMENT
deriving DecidableEq, Repr

/-- The enum member name (Python `TokenType.<member>.name`). -/
def TokenType.pyName : TokenType → String
  | .LOAD => "LOAD"
  | .SELECT => "SELECT"
  | .FILTER => "FILTER"
  | .SORT => "SORT"
  | .JOIN => "JOIN"
  | .GROUPBY => "GROUPBY"
  | .SAMPLE => "SAMPLE"
  | .DROPNA => "DROPNA"
  | .FILLNA => "FILLNA"
  | .MUTATE => "MUTATE"
  | .APPLY => "APPLY"
  | .DESCRIBE => "DESCRIBE"
  | .SUMMARY => "SUMMARY"
  | .OUTLIERS => "OUTLIERS"
  | .QUANTILE => "QUANTILE"
  | .NORMALIZE => "NORMALIZE"
  | .BINNING => "BINNING"
  | .ROLLING => "ROLLING"
  | .HYPOTHESIS => "HYPOTHESIS"
  | .BOXPLOT => "BOXPLOT"
  | .HEATMAP => "HEATMAP"
  | .PAIRPLOT => "PAIRPLOT"
  | .TIMESERIES => "TIMESERIES"
  | .PIE => "PIE"
  | .SAVE => "SAVE"
  | .EXPORT_PLOT => "EXPORT_PLOT"
  | .INFO => "INFO"
  | .UNIQUE => "UNIQUE"
  | .VALUE_COUNTS => "VALUE_COUNTS"
  | .SHOW => "SHOW"
  | .SELECT_BY_TYPE => "SELECT_BY_TYPE"
  | .HEAD => "HEAD"
  | .TAIL => "TAIL"
  | .ILOC => "ILOC"
  | .LOC => "LOC"
  | .RENAME => "RENAME"
  | .REORDER => "REORDER"
  | .FILTER_BETWEEN => "FILTER_BETWEEN"
  | .FILTER_ISIN => "FILTER_ISIN"
  | .FILTER_CONTAINS => "FILTER_CONTAINS"
  | .FILTER_STARTSWITH => "FILTER_STARTSWITH"
  | .FILTER_ENDSWITH => "FILTER_ENDSWITH"
  | .FILTER_REGEX => "FILTER_REGEX"
  | .FILTER_NULL => "FILTER_NULL"
  | .FILTER_NOTNULL => "FILTER_NOTNULL"
  | .FILTER_DUPLICATES => "FILTER_DUPLICATES"
  | .ROUND => "ROUND"
  | .ABS => "ABS"
  | .SQRT => "SQRT"
  | .POWER => "POWER"
  | .LOG => "LOG"
  | .CEIL => "CEIL"
  | .FLOOR => "FLOOR"
  | .UPPER => "UPPER"
  | .LOWER => "LOWER"
  | .STRIP => "STRIP"
  | .LSTRIP => "LSTRIP"
  | .RSTRIP => "RSTRIP"
  | .TITLE => "TITLE"
  | .CAPITALIZE => "CAPITALIZE"
  | .REPLACE => "REPLACE"
  | .SPLIT => "SPLIT"
  | .CONCAT => "CONCAT"
  | .SUBSTRING => "SUBSTRING"
  | .LENGTH => "LENGTH"
  | .EXTRACT_REGEX => "EXTRACT_REGEX"
  | .FIND => "FIND"
  | .PARSE_DATETIME => "PARSE_DATETIME"
  | .EXTRACT => "EXTRACT"
  | .EXTRACT_YEAR => "EXTRACT_YEAR"
  | .EXTRACT_MONTH => "EXTRACT_MONTH"
  | .EXTRACT_DAY => "EXTRACT_DAY"
  | .EXTRACT_HOUR => "EXTRACT_HOUR"
  | .EXTRACT_MINUTE => "EXTRACT_MINUTE"
  | .EXTRACT_SECOND => "EXTRACT_SECOND"
  | .EXTRACT_DAYOFWEEK => "EXTRACT_DAYOFWEEK"
  | .EXTRACT_DAYOFYEAR => "EXTRACT_DAYOFYEAR"
  | .EXTRACT_WEEKOFYEAR => "EXTRACT_WEEKOFYEAR"
  | .EXTRACT_QUARTER => "EXTRACT_QUARTER"
  | .DATE_DIFF => "DATE_DIFF"
  | .DATE_ADD => "DATE_ADD"
  | .DATE_SUBTRACT => "DATE_SUBTRACT"
  | .FORMAT_DATETIME => "FORMAT_DATETIME"
  | .ASTYPE => "ASTYPE"
  | .TO_NUMERIC => "TO_NUMERIC"
  | .ONE_HOT_ENCODE => "ONE_HOT_ENCODE"
  | .LABEL_ENCODE => "LABEL_ENCODE"
  | .STANDARD_SCALE => "STANDARD_SCALE"
  | .MINMAX_SCALE => "MINMAX_SCALE"
  | .ISNULL => "ISNULL"
  | .NOTNULL => "NOTNULL"
  | .COUNT_NA => "COUNT_NA"
  | .FILL_FORWARD => "FILL_FORWARD"
  | .FILL_BACKWARD => "FILL_BACKWARD"
  | .FILL_MEAN => "FILL_MEAN"
  | .FILL_MEDIAN => "FILL_MEDIAN"
  | .FILL_MODE => "FILL_MODE"
  | .INTERPOLATE => "INTERPOLATE"
  | .DUPLICATED => "DUPLICATED"
  | .COUNT_DUPLICATES => "COUNT_DUPLICATES"
  | .DROP_DUPLICATES => "DROP_DUPLICATES"
  | .QCUT => "QCUT"
  | .CUT => "CUT"
  | .SORT_INDEX => "SORT_INDEX"
  | .RANK => "RANK"
  | .FILTER_GROUPS => "FILTER_GROUPS"
  | .GROUP_TRANSFORM => "GROUP_TRANSFORM"
  | .WINDOW_RANK => "WINDOW_RANK"
  | .WINDOW_LAG => "WINDOW_LAG"
  | .WINDOW_LEAD => "WINDOW_LEAD"
  | .ROLLING_MEAN => "ROLLING_MEAN"
  | .ROLLING_SUM => "ROLLING_SUM"
  | .ROLLING_STD => "ROLLING_STD"
  | .ROLLING_MIN => "ROLLING_MIN"
  | .ROLLING_MAX => "ROLLING_MAX"
  | .EXPANDING_MEAN => "EXPANDING_MEAN"
  | .EXPANDING_SUM => "EXPANDING_SUM"
  | .EXPANDING_MIN => "EXPANDING_MIN"
  | .EXPANDING_MAX => "EXPANDING_MAX"
  | .CUMSUM => "CUMSUM"
  | .CUMMAX => "CUMMAX"
  | .CUMMIN => "CUMMIN"
  | .CUMPROD => "CUMPROD"
  | .PCT_CHANGE => "PCT_CHANGE"
  | .DIFF => "DIFF"
  | .SHIFT => "SHIFT"
  | .PIVOT => "PIVOT"
  | .PIVOT_TABLE => "PIVOT_TABLE"
  | .MELT => "MELT"
  | .STACK => "STACK"
  | .UNSTACK => "UNSTACK"
  | .TRANSPOSE => "TRANSPOSE"
  | .CROSSTAB => "CROSSTAB"
  | .MERGE => "MERGE"
  | .CONCAT_VERTICAL => "CONCAT_VERTICAL"
  | .CONCAT_HORIZONTAL => "CONCAT_HORIZONTAL"
  | .UNION => "UNION"
  | .INTERSECTION => "INTERSECTION"
  | .DIFFERENCE => "DIFFERENCE"
  | .SET_INDEX => "SET_INDEX"
  | .RESET_INDEX => "RESET_INDEX"
  | .APPLY_ROW => "APPLY_ROW"
  | .APPLY_COLUMN => "APPLY_COLUMN"
  | .APPLYMAP => "APPLYMAP"
  | .MAP => "MAP"
  | .MAP_VALUES => "MAP_VALUES"
  | .RESAMPLE => "RESAMPLE"
  | .ASSIGN_CONST => "ASSIGN_CONST"
  | .ROBUST_SCALE => "ROBUST_SCALE"
  | .MAXABS_SCALE => "MAXABS_SCALE"
  | .ORDINAL_ENCODE => "ORDINAL_ENCODE"
  | .TARGET_ENCODE => "TARGET_ENCODE"
  | .ASSERT_UNIQUE => "ASSERT_UNIQUE"
  | .ASSERT_NO_NULLS => "ASSERT_NO_NULLS"
  | .ASSERT_RANGE => "ASSERT_RANGE"
  | .REINDEX => "REINDEX"
  | .SET_MULTIINDEX => "SET_MULTIINDEX"
  | .ANY => "ANY"
  | .ALL => "ALL"
  | .COUNT_TRUE => "COUNT_TRUE"
  | .COMPARE => "COMPARE"
  | .CSV => "CSV"
  | .JSON => "JSON"
  | .EXCEL => "EXCEL"
  | .PARQUET => "PARQUET"
  | .SQL => "SQL"
  | .AS => "AS"
  | .BY => "BY"
  | .WITH => "WITH"
  | .ON => "ON"
  | .FROM => "FROM"
  | .AGG => "AGG"
  | .COMPUTE => "COMPUTE"
  | .COLUMN => "COLUMN"
  | .COLUMNS => "COLUMNS"
  | .VALUE => "VALUE"
  | .VALUES => "VALUES"
  | .N => "N"
  | .RANDOM => "RANDOM"
  | .METHOD => "METHOD"
  | .Q => "Q"
  | .BINS => "BINS"
  | .WINDOW => "WINDOW"
  | .FUNCTION => "FUNCTION"
  | .TRANSFORM => "TRANSFORM"
  | .VS => "VS"
  | .TEST => "TEST"
  | .X => "X"
  | .Y => "Y"
  | .LABELS => "LABELS"
  | .TO => "TO"
  | .FORMAT => "FORMAT"
  | .FILENAME => "FILENAME"
  | .WIDTH => "WIDTH"
  | .HEIGHT => "HEIGHT"
  | .DESC => "DESC"
  | .WHERE => "WHERE"
  | .ASC => "ASC"
  | .TYPE => "TYPE"
  | .ROWS => "ROWS"
  | .MAPPING => "MAPPING"
  | .ORDER => "ORDER"
  | .LIMIT => "LIMIT"
  | .OFFSET => "OFFSET"
  | .FIRST => "FIRST"
  | .LAST => "LAST"
  | .MIN => "MIN"
  | .MAX => "MAX"
  | .PATTERN => "PATTERN"
  | .KEEP => "KEEP"
  | .SUBSET => "SUBSET"
  | .AND => "AND"
  | .OR => "OR"
  | .NOT => "NOT"
  | .IN => "IN"
  | .BETWEEN => "BETWEEN"
  | .CONTAINS => "CONTAINS"
  | .STARTS_WITH => "STARTS_WITH"
  | .ENDS_WITH => "ENDS_WITH"
  | .MATCHES => "MATCHES"
  | .IS => "IS"
  | .NULL => "NULL"
  | .PART => "PART"
  | .DECIMALS => "DECIMALS"
  | .EXPONENT => "EXPONENT"
  | .BASE => "BASE"
  | .SEPARATOR => "SEPARATOR"
  | .UNIT => "UNIT"
  | .OLD => "OLD"
  | .NEW => "NEW"
  | .DELIMITER_STR => "DELIMITER_STR"
  | .START => "START"
  | .END => "END"
  | .DTYPE_STR => "DTYPE_STR"
  | .ERRORS => "ERRORS"
  | .STRATEGY => "STRATEGY"
  | .AXIS => "AXIS"
  | .ASCENDING => "ASCENDING"
  | .PERIODS => "PERIODS"
  | .ID_VARS => "ID_VARS"
  | .VALUE_VARS => "VALUE_VARS"
  | .VAR_NAME => "VAR_NAME"
  | .VALUE_NAME => "VALUE_NAME"
  | .LEFT => "LEFT"
  | .RIGHT => "RIGHT"
  | .LEFT_ON => "LEFT_ON"
  | .RIGHT_ON => "RIGHT_ON"
  | .SUFFIXES => "SUFFIXES"
  | .HOW => "HOW"
  | .AGGFUNC => "AGGFUNC"
  | .FILL_VALUE => "FILL_VALUE"
  | .LEVEL => "LEVEL"
  | .RULE => "RULE"
  | .CONDITION => "CONDITION"
  | .PCT => "PCT"
  | .DROP => "DROP"
  | .IGNORE_INDEX => "IGNORE_INDEX"
  | .DELIMITER => "DELIMITER"
  | .ENCODING => "ENCODING"
  | .HEADER => "HEADER"
  | .NAMES => "NAMES"
  | .USECOLS => "USECOLS"
  | .DTYPE => "DTYPE"
  | .SKIPROWS => "SKIPROWS"
  | .NROWS => "NROWS"
  | .NA_VALUES => "NA_VALUES"
  | .THOUSANDS => "THOUSANDS"
  | .DECIMAL => "DECIMAL"
  | .COMMENT_CHAR => "COMMENT_CHAR"
  | .SKIP_BLANK_LINES => "SKIP_BLANK_LINES"
  | .PARSE_DATES => "PARSE_DATES"
  | .DATE_FORMAT => "DATE_FORMAT"
  | .CHUNKSIZE => "CHUNKSIZE"
  | .COMPRESSION => "COMPRESSION"
  | .LOW_MEMORY => "LOW_MEMORY"
  | .MEMORY_MAP => "MEMORY_MAP"
  | .ORIENT => "ORIENT"
  | .TYP => "TYP"
  | .CONVERT_AXES => "CONVERT_AXES"
  | .CONVERT_DATES => "CONVERT_DATES"
  | .PRECISE_FLOAT => "PRECISE_FLOAT"
  | .DATE_UNIT => "DATE_UNIT"
  | .LINES => "LINES"
  | .SHEET => "SHEET"
  | .SHEET_NAME => "SHEET_NAME"
  | .INDEX_COL => "INDEX_COL"
  | .ENGINE => "ENGINE"
  | .CONVERTERS => "CONVERTERS"
  | .SKIPFOOTER => "SKIPFOOTER"
  | .FILTERS => "FILTERS"
  | .USE_NULLABLE_DTYPES => "USE_NULLABLE_DTYPES"
  | .STORAGE_OPTIONS => "STORAGE_OPTIONS"
  | .PARAMS => "PARAMS"
  | .COERCE_FLOAT => "COERCE_FLOAT"
  | .INDEX => "INDEX"
  | .INDEX_LABEL => "INDEX_LABEL"
  | .NA_REP => "NA_REP"
  | .MODE => "MODE"
  | .QUOTING => "QUOTING"
  | .QUOTECHAR => "QUOTECHAR"
  | .ESCAPECHAR => "ESCAPECHAR"
  | .LINETERMINATOR => "LINETERMINATOR"
  | .FLOAT_FORMAT => "FLOAT_FORMAT"
  | .TARGET => "TARGET"
  | .CHARS => "CHARS"
  | .GROUP => "GROUP"
  | .STRING_LITERAL => "STRING_LITERAL"
  | .NUMERIC_LITERAL => "NUMERIC_LITERAL"
  | .BOOLEAN_LITERAL => "BOOLEAN_LITERAL"
  | .IDENTIFIER => "IDENTIFIER"
  | .EQ => "EQ"
  | .NEQ => "NEQ"
  | .LT => "LT"
  | .GT => "GT"
  | .LTE => "LTE"
  | .GTE => "GTE"
  | .ASSIGN => "ASSIGN"
  | .PLUS => "PLUS"
  | .MINUS => "MINUS"
  | .STAR => "STAR"
  | .SLASH => "SLASH"
  | .PERCENT => "PERCENT"
  | .DOT => "DOT"
  | .LPAREN => "LPAREN"
  | .RPAREN => "RPAREN"
  | .LBRACE => "LBRACE"
  | .RBRACE => "RBRACE"
  | .LBRACKET => "LBRACKET"
  | .RBRACKET => "RBRACKET"
  | .COLON => "COLON"
  | .COMMA => "COMMA"
  | .NEWLINE => "NEWLINE"
  | .EOF => "EOF"
  | .COMMENT => "COMMENT"

set_option maxRecDepth 8192 in
/-- The case-insensitive keyword table of `Lexer.__init__` (noeta_lexer.py),
in source order; looked up with the lowercased identifier text. -/
def keywordList : List (String × TokenType) :=
  ("load", TokenType.LOAD) ::
  ("select", TokenType.SELECT) ::
  ("filter", TokenType.FILTER) ::
  ("sort", TokenType.SORT) ::
  ("join", TokenType.JOIN) ::
  ("groupby", TokenType.GROUPBY) ::
  ("sample", TokenType.SAMPLE) ::
  ("dropna", TokenType.DROPNA) ::
  ("fillna", TokenType.FILLNA) ::
  ("mutate", TokenType.MUTATE) ::
  ("apply", TokenType.APPLY) ::
  ("describe", TokenType.DESCRIBE) ::
  ("summary", TokenType.SUMMARY) ::
  ("outliers", TokenType.OUTLIERS) ::
  ("quantile", TokenType.QUANTILE) ::
  ("normalize", TokenType.NORMALIZE) ::
  ("binning", TokenType.BINNING) ::
  ("rolling", TokenType.ROLLING) ::
  ("hypothesis", TokenType.HYPOTHESIS) ::
  ("boxplot", TokenType.BOXPLOT) ::
  ("heatmap", TokenType.HEATMAP) ::
  ("pairplot", TokenType.PAIRPLOT) ::
  ("timeseries", TokenType.TIMESERIES) ::
  ("pie", TokenType.PIE) ::
  ("save", TokenType.SAVE) ::
  ("export_plot", TokenType.EXPORT_PLOT) ::
  ("info", TokenType.INFO) ::
  ("unique", TokenType.UNIQUE) ::
  ("value_counts", TokenType.VALUE_COUNTS) ::
  ("show", TokenType.SHOW) ::
  ("select_by_type", TokenType.SELECT_BY_TYPE) ::
  ("head", TokenType.HEAD) ::
  ("tail", TokenType.TAIL) ::
  ("iloc", TokenType.ILOC) ::
  ("loc", TokenType.LOC) ::
  ("rename", TokenType.RENAME) ::
  ("reorder", TokenType.REORDER) ::
  ("filter_between", TokenType.FILTER_BETWEEN) ::
  ("filter_isin", TokenType.FILTER_ISIN) ::
  ("filter_contains", TokenType.FILTER_CONTAINS) ::
  ("filter_startswith", TokenType.FILTER_STARTSWITH) ::
  ("filter_endswith", TokenType.FILTER_ENDSWITH) ::
  ("filter_regex", TokenType.FILTER_REGEX) ::
  ("filter_null", TokenType.FILTER_NULL) ::
  ("filter_notnull", TokenType.FILTER_NOTNULL) ::
  ("filter_duplicates", TokenType.FILTER_DUPLICATES) ::
  ("round", TokenType.ROUND) ::
  ("abs", TokenType.ABS) ::
  ("sqrt", TokenType.SQRT) ::
  ("power", TokenType.POWER) ::
  ("log", TokenType.LOG) ::
  ("ceil", TokenType.CEIL) ::
  ("floor", TokenType.FLOOR) ::
  ("upper", TokenType.UPPER) ::
  ("lower", TokenType.LOWER) ::
  ("strip", TokenType.STRIP) ::
  ("lstrip", TokenType.LSTRIP) ::
  ("rstrip", TokenType.RSTRIP) ::
  ("title", TokenType.TITLE) ::
  ("capitalize", TokenType.CAPITALIZE) ::
  ("replace", TokenType.REPLACE) ::
  ("split", TokenType.SPLIT) ::
  ("concat", TokenType.CONCAT) ::
  ("substring", TokenType.SUBSTRING) ::
  ("length", TokenType.LENGTH) ::
  ("extract_regex", TokenType.EXTRACT_REGEX) ::
  ("find", TokenType.FIND) ::
  ("parse_datetime", TokenType.PARSE_DATETIME) ::
  ("extract", TokenType.EXTRACT) ::
  ("extract_year", TokenType.EXTRACT_YEAR) ::
  ("extract_month", TokenType.EXTRACT_MONTH) ::
  ("extract_day", TokenType.EXTRACT_DAY) ::
  ("extract_hour", TokenType.EXTRACT_HOUR) ::
  ("extract_minute", TokenType.EXTRACT_MINUTE) ::
  ("extract_second", TokenType.EXTRACT_SECOND) ::
  ("extract_dayofweek", TokenType.EXTRACT_DAYOFWEEK) ::
  ("extract_dayofyear", TokenType.EXTRACT_DAYOFYEAR) ::
  ("extract_weekofyear", TokenType.EXTRACT_WEEKOFYEAR) ::
  ("extract_quarter", TokenType.EXTRACT_QUARTER) ::
  ("date_diff", TokenType.DATE_DIFF) ::
  ("date_add", TokenType.DATE_ADD) ::
  ("date_subtract", TokenType.DATE_SUBTRACT) ::
  ("format_datetime", TokenType.FORMAT_DATETIME) ::
  ("astype", TokenType.ASTYPE) ::
  ("to_numeric", TokenType.TO_NUMERIC) ::
  ("one_hot_encode", TokenType.ONE_HOT_ENCODE) ::
  ("label_encode", TokenType.LABEL_ENCODE) ::
  ("standard_scale", TokenType.STANDARD_SCALE) ::
  ("minmax_scale", TokenType.MINMAX_SCALE) ::
  ("isnull", TokenType.ISNULL) ::
  ("notnull", TokenType.NOTNULL) ::
  ("count_na", TokenType.COUNT_NA) ::
  ("fill_forward", TokenType.FILL_FORWARD) ::
  ("fill_backward", TokenType.FILL_BACKWARD) ::
  ("fill_mean", TokenType.FILL_MEAN) ::
  ("fill_median", TokenType.FILL_MEDIAN) ::
  ("fill_mode", TokenType.FILL_MODE) ::
  ("interpolate", TokenType.INTERPOLATE) ::
  ("duplicated", TokenType.DUPLICATED) ::
  ("count_duplicates", TokenType.COUNT_DUPLICATES) ::
  ("drop_duplicates", TokenType.DROP_DUPLICATES) ::
  ("qcut", TokenType.QCUT) ::
  ("cut", TokenType.CUT) ::
  ("sort_index", TokenType.SORT_INDEX) ::
  ("rank", TokenType.RANK) ::
  ("filter_groups", TokenType.FILTER_GROUPS) ::
  ("group_transform", TokenType.GROUP_TRANSFORM) ::
  ("window_rank", TokenType.WINDOW_RANK) ::
  ("window_lag", TokenType.WINDOW_LAG) ::
  ("window_lead", TokenType.WINDOW_LEAD) ::
  ("rolling_mean", TokenType.ROLLING_MEAN) ::
  ("rolling_sum", TokenType.ROLLING_SUM) ::
  ("rolling_std", TokenType.ROLLING_STD) ::
  ("rolling_min", TokenType.ROLLING_MIN) ::
  ("rolling_max", TokenType.ROLLING_MAX) ::
  ("expanding_mean", TokenType.EXPANDING_MEAN) ::
  ("expanding_sum", TokenType.EXPANDING_SUM) ::
  ("expanding_min", TokenType.EXPANDING_MIN) ::
  ("expanding_max", TokenType.EXPANDING_MAX) ::
  ("cumsum", TokenType.CUMSUM) ::
  ("cummax", TokenType.CUMMAX) ::
  ("cummin", TokenType.CUMMIN) ::
  ("cumprod", TokenType.CUMPROD) ::
  ("pct_change", TokenType.PCT_CHANGE) ::
  ("diff", TokenType.DIFF) ::
  ("shift", TokenType.SHIFT) ::
  ("pivot", TokenType.PIVOT) ::
  ("pivot_table", TokenType.PIVOT_TABLE) ::
  ("melt", TokenType.MELT) ::
  ("stack", TokenType.STACK) ::
  ("unstack", TokenType.UNSTACK) ::
  ("transpose", TokenType.TRANSPOSE) ::
  ("crosstab", TokenType.CROSSTAB) ::
  ("merge", TokenType.MERGE) ::
  ("concat_vertical", TokenType.CONCAT_VERTICAL) ::
  ("concat_horizontal", TokenType.CONCAT_HORIZONTAL) ::
  ("union", TokenType.UNION) ::
  ("intersection", TokenType.INTERSECTION) ::
  ("difference", TokenType.DIFFERENCE) ::
  ("set_index", TokenType.SET_INDEX) ::
  ("reset_index", TokenType.RESET_INDEX) ::
  ("apply_row", TokenType.APPLY_ROW) ::
  ("apply_column", TokenType.APPLY_COLUMN) ::
  ("map", TokenType.MAP) ::
  ("applymap", TokenType.APPLYMAP) ::
  ("map_values", TokenType.MAP_VALUES) ::
  ("resample", TokenType.RESAMPLE) ::
  ("assign", TokenType.ASSIGN_CONST) ::
  ("robust_scale", TokenType.ROBUST_SCALE) ::
  ("maxabs_scale", TokenType.MAXABS_SCALE) ::
  ("ordinal_encode", TokenType.ORDINAL_ENCODE) ::
  ("target_encode", TokenType.TARGET_ENCODE) ::
  ("assert_unique", TokenType.ASSERT_UNIQUE) ::
  ("assert_no_nulls", TokenType.ASSERT_NO_NULLS) ::
  ("assert_range", TokenType.ASSERT_RANGE) ::
  ("reindex", TokenType.REINDEX) ::
  ("set_multiindex", TokenType.SET_MULTIINDEX) ::
  ("any", TokenType.ANY) ::
  ("all", TokenType.ALL) ::
  ("count_true", TokenType.COUNT_TRUE) ::
  ("compare", TokenType.COMPARE) ::
  ("csv", TokenType.CSV) ::
  ("json", TokenType.JSON) ::
  ("excel", TokenType.EXCEL) ::
  ("parquet", TokenType.PARQUET) ::
  ("sql", TokenType.SQL) ::
  ("as", TokenType.AS) ::
  ("by", TokenType.BY) ::
  ("with", TokenType.WITH) ::
  ("on", TokenType.ON) ::
  ("from", TokenType.FROM) ::
  ("agg", TokenType.AGG) ::
  ("compute", TokenType.COMPUTE) ::
  ("column", TokenType.COLUMN) ::
  ("columns", TokenType.COLUMNS) ::
  ("transform", TokenType.TRANSFORM) ::
  ("value", TokenType.VALUE) ::
  ("values", TokenType.VALUES) ::
  ("n", TokenType.N) ::
  ("random", TokenType.RANDOM) ::
  ("method", TokenType.METHOD) ::
  ("q", TokenType.Q) ::
  ("bins", TokenType.BINS) ::
  ("window", TokenType.WINDOW) ::
  ("function", TokenType.FUNCTION) ::
  ("vs", TokenType.VS) ::
  ("test", TokenType.TEST) ::
  ("x", TokenType.X) ::
  ("y", TokenType.Y) ::
  ("labels", TokenType.LABELS) ::
  ("to", TokenType.TO) ::
  ("format", TokenType.FORMAT) ::
  ("filename", TokenType.FILENAME) ::
  ("width", TokenType.WIDTH) ::
  ("height", TokenType.HEIGHT) ::
  ("desc", TokenType.DESC) ::
  ("where", TokenType.WHERE) ::
  ("asc", TokenType.ASC) ::
  ("type", TokenType.TYPE) ::
  ("rows", TokenType.ROWS) ::
  ("mapping", TokenType.MAPPING) ::
  ("order", TokenType.ORDER) ::
  ("limit", TokenType.LIMIT) ::
  ("offset", TokenType.OFFSET) ::
  ("first", TokenType.FIRST) ::
  ("last", TokenType.LAST) ::
  ("min", TokenType.MIN) ::
  ("max", TokenType.MAX) ::
  ("pattern", TokenType.PATTERN) ::
  ("keep", TokenType.KEEP) ::
  ("subset", TokenType.SUBSET) ::
  ("and", TokenType.AND) ::
  ("or", TokenType.OR) ::
  ("not", TokenType.NOT) ::
  ("in", TokenType.IN) ::
  ("between", TokenType.BETWEEN) ::
  ("contains", TokenType.CONTAINS) ::
  ("starts_with", TokenType.STARTS_WITH) ::
  ("ends_with", TokenType.ENDS_WITH) ::
  ("matches", TokenType.MATCHES) ::
  ("is", TokenType.IS) ::
  ("null", TokenType.NULL) ::
  ("true", TokenType.BOOLEAN_LITERAL) ::
  ("false", TokenType.BOOLEAN_LITERAL) ::
  ("part", TokenType.PART) ::
  ("decimals", TokenType.DECIMALS) ::
  ("exponent", TokenType.EXPONENT) ::
  ("base", TokenType.BASE) ::
  ("separator", TokenType.SEPARATOR) ::
  ("unit", TokenType.UNIT) ::
  ("old", TokenType.OLD) ::
  ("new", TokenType.NEW) ::
  ("target", TokenType.TARGET) ::
  ("chars", TokenType.CHARS) ::
  ("group", TokenType.GROUP) ::
  ("delimiter_str", TokenType.DELIMITER_STR) ::
  ("start", TokenType.START) ::
  ("end", TokenType.END) ::
  ("dtype_str", TokenType.DTYPE_STR) ::
  ("errors", TokenType.ERRORS) ::
  ("strategy", TokenType.STRATEGY) ::
  ("axis", TokenType.AXIS) ::
  ("ascending", TokenType.ASCENDING) ::
  ("periods", TokenType.PERIODS) ::
  ("id_vars", TokenType.ID_VARS) ::
  ("value_vars", TokenType.VALUE_VARS) ::
  ("var_name", TokenType.VAR_NAME) ::
  ("value_name", TokenType.VALUE_NAME) ::
  ("left", TokenType.LEFT) ::
  ("right", TokenType.RIGHT) ::
  ("left_on", TokenType.LEFT_ON) ::
  ("right_on", TokenType.RIGHT_ON) ::
  ("suffixes", TokenType.SUFFIXES) ::
  ("how", TokenType.HOW) ::
  ("aggfunc", TokenType.AGGFUNC) ::
  ("fill_value", TokenType.FILL_VALUE) ::
  ("level", TokenType.LEVEL) ::
  ("rule", TokenType.RULE) ::
  ("condition", TokenType.CONDITION) ::
  ("pct", TokenType.PCT) ::
  ("drop", TokenType.DROP) ::
  ("ignore_index", TokenType.IGNORE_INDEX) ::
  ("delimiter", TokenType.DELIMITER) ::
  ("encoding", TokenType.ENCODING) ::
  ("header", TokenType.HEADER) ::
  ("names", TokenType.NAMES) ::
  ("usecols", TokenType.USECOLS) ::
  ("dtype", TokenType.DTYPE) ::
  ("skiprows", TokenType.SKIPROWS) ::
  ("nrows", TokenType.NROWS) ::
  ("na_values", TokenType.NA_VALUES) ::
  ("thousands", TokenType.THOUSANDS) ::
  ("decimal", TokenType.DECIMAL) ::
  ("comment", TokenType.COMMENT_CHAR) ::
  ("skip_blank_lines", TokenType.SKIP_BLANK_LINES) ::
  ("parse_dates", TokenType.PARSE_DATES) ::
  ("date_format", TokenType.DATE_FORMAT) ::
  ("chunksize", TokenType.CHUNKSIZE) ::
  ("compression", TokenType.COMPRESSION) ::
  ("low_memory", TokenType.LOW_MEMORY) ::
  ("memory_map", TokenType.MEMORY_MAP) ::
  ("orient", TokenType.ORIENT) ::
  ("typ", TokenType.TYP) ::
  ("convert_axes", TokenType.CONVERT_AXES) ::
  ("convert_dates", TokenType.CONVERT_DATES) ::
  ("precise_float", TokenType.PRECISE_FLOAT) ::
  ("date_unit", TokenType.DATE_UNIT) ::
  ("lines", TokenType.LINES) ::
  ("sheet", TokenType.SHEET) ::
  ("sheet_name", TokenType.SHEET_NAME) ::
  ("index_col", TokenType.INDEX_COL) ::
  ("engine", TokenType.ENGINE) ::
  ("converters", TokenType.CONVERTERS) ::
  ("skipfooter", TokenType.SKIPFOOTER) ::
  ("filters", TokenType.FILTERS) ::
  ("use_nullable_dtypes", TokenType.USE_NULLABLE_DTYPES) ::
  ("storage_options", TokenType.STORAGE_OPTIONS) ::
  ("params", TokenType.PARAMS) ::
  ("coerce_float", TokenType.COERCE_FLOAT) ::
  ("index", TokenType.INDEX) ::
  ("index_label", TokenType.INDEX_LABEL) ::
  ("na_rep", TokenType.NA_REP) ::
  ("mode", TokenType.MODE) ::
  ("quoting", TokenType.QUOTING) ::
  ("quotechar", TokenType.QUOTECHAR) ::
  ("escapechar", TokenType.ESCAPECHAR) ::
  ("lineterminator", TokenType.LINETERMINATOR) ::
  ("float_format", TokenType.FLOAT_FORMAT) :: []

/-- Python `self.keywords.get(value.lower(), TokenType.IDENTIFIER)` minus the
default, i.e. the dict lookup itself. -/
def keywords (s : String) : Option TokenType :=
  keywordList.lookup s
set_option maxRecDepth 8192 in
/-- Leading-token kinds that `Parser.parse_statement` dispatches to statement
routines not modelled in this development (every branch of the flat dispatch
other than load/select/filter/describe/outliers). -/
def dispatchedElsewhere : List TokenType :=
  TokenType.SORT ::
  TokenType.JOIN ::
  TokenType.GROUPBY ::
  TokenType.SAMPLE ::
  TokenType.SELECT_BY_TYPE ::
  TokenType.HEAD ::
  TokenType.TAIL ::
  TokenType.ILOC ::
  TokenType.LOC ::
  TokenType.RENAME ::
  TokenType.REORDER ::
  TokenType.FILTER_BETWEEN ::
  TokenType.FILTER_ISIN ::
  TokenType.FILTER_CONTAINS ::
  TokenType.FILTER_STARTSWITH ::
  TokenType.FILTER_ENDSWITH ::
  TokenType.FILTER_REGEX ::
  TokenType.FILTER_NULL ::
  TokenType.FILTER_NOTNULL ::
  TokenType.FILTER_DUPLICATES ::
  TokenType.ROUND ::
  TokenType.ABS ::
  TokenType.SQRT ::
  TokenType.POWER ::
  TokenType.LOG ::
  TokenType.CEIL ::
  TokenType.FLOOR ::
  TokenType.UPPER ::
  TokenType.LOWER ::
  TokenType.STRIP ::
  TokenType.REPLACE ::
  TokenType.SPLIT ::
  TokenType.CONCAT ::
  TokenType.SUBSTRING ::
  TokenType.LENGTH ::
  TokenType.PARSE_DATETIME ::
  TokenType.EXTRACT ::
  TokenType.EXTRACT_YEAR ::
  TokenType.EXTRACT_MONTH ::
  TokenType.EXTRACT_DAY ::
  TokenType.DATE_DIFF ::
  TokenType.ASTYPE ::
  TokenType.TO_NUMERIC ::
  TokenType.ONE_HOT_ENCODE ::
  TokenType.LABEL_ENCODE ::
  TokenType.STANDARD_SCALE ::
  TokenType.MINMAX_SCALE ::
  TokenType.ISNULL ::
  TokenType.NOTNULL ::
  TokenType.COUNT_NA ::
  TokenType.FILL_FORWARD ::
  TokenType.FILL_BACKWARD ::
  TokenType.FILL_MEAN ::
  TokenType.FILL_MEDIAN ::
  TokenType.INTERPOLATE ::
  TokenType.DUPLICATED ::
  TokenType.COUNT_DUPLICATES ::
  TokenType.DROP_DUPLICATES ::
  TokenType.FILL_MODE ::
  TokenType.QCUT ::
  TokenType.SORT_INDEX ::
  TokenType.RANK ::
  TokenType.FILTER_GROUPS ::
  TokenType.GROUP_TRANSFORM ::
  TokenType.WINDOW_RANK ::
  TokenType.WINDOW_LAG ::
  TokenType.WINDOW_LEAD ::
  TokenType.ROLLING_MEAN ::
  TokenType.ROLLING_SUM ::
  TokenType.ROLLING_STD ::
  TokenType.ROLLING_MIN ::
  TokenType.ROLLING_MAX ::
  TokenType.EXPANDING_MEAN ::
  TokenType.EXPANDING_SUM ::
  TokenType.EXPANDING_MIN ::
  TokenType.EXPANDING_MAX ::
  TokenType.PIVOT ::
  TokenType.PIVOT_TABLE ::
  TokenType.MELT ::
  TokenType.STACK ::
  TokenType.UNSTACK ::
  TokenType.TRANSPOSE ::
  TokenType.CROSSTAB ::
  TokenType.MERGE ::
  TokenType.CONCAT_VERTICAL ::
  TokenType.CONCAT_HORIZONTAL ::
  TokenType.UNION ::
  TokenType.INTERSECTION ::
  TokenType.DIFFERENCE ::
  TokenType.SET_INDEX ::
  TokenType.RESET_INDEX ::
  TokenType.APPLY_ROW ::
  TokenType.APPLY_COLUMN ::
  TokenType.RESAMPLE ::
  TokenType.ASSIGN_CONST ::
  TokenType.CUMSUM ::
  TokenType.CUMMAX ::
  TokenType.CUMMIN ::
  TokenType.CUMPROD ::
  TokenType.PCT_CHANGE ::
  TokenType.DIFF ::
  TokenType.SHIFT ::
  TokenType.APPLYMAP ::
  TokenType.MAP_VALUES ::
  TokenType.EXTRACT_HOUR ::
  TokenType.EXTRACT_MINUTE ::
  TokenType.EXTRACT_SECOND ::
  TokenType.EXTRACT_DAYOFWEEK ::
  TokenType.EXTRACT_DAYOFYEAR ::
  TokenType.EXTRACT_WEEKOFYEAR ::
  TokenType.EXTRACT_QUARTER ::
  TokenType.DATE_ADD ::
  TokenType.DATE_SUBTRACT ::
  TokenType.FORMAT_DATETIME ::
  TokenType.EXTRACT_REGEX ::
  TokenType.TITLE ::
  TokenType.CAPITALIZE ::
  TokenType.LSTRIP ::
  TokenType.RSTRIP ::
  TokenType.FIND ::
  TokenType.CUT ::
  TokenType.ROBUST_SCALE ::
  TokenType.MAXABS_SCALE ::
  TokenType.ORDINAL_ENCODE ::
  TokenType.TARGET_ENCODE ::
  TokenType.ASSERT_UNIQUE ::
  TokenType.ASSERT_NO_NULLS ::
  TokenType.ASSERT_RANGE ::
  TokenType.REINDEX ::
  TokenType.SET_MULTIINDEX ::
  TokenType.ANY ::
  TokenType.ALL ::
  TokenType.COUNT_TRUE ::
  TokenType.COMPARE ::
  TokenType.DROPNA ::
  TokenType.FILLNA ::
  TokenType.MUTATE ::
  TokenType.APPLY ::
  TokenType.SUMMARY ::
  TokenType.INFO ::
  TokenType.UNIQUE ::
  TokenType.VALUE_COUNTS ::
  TokenType.QUANTILE ::
  TokenType.NORMALIZE ::
  TokenType.BINNING ::
  TokenType.ROLLING ::
  TokenType.HYPOTHESIS ::
  TokenType.BOXPLOT ::
  TokenType.HEATMAP ::
  TokenType.PAIRPLOT ::
  TokenType.TIMESERIES ::
  TokenType.PIE ::
  TokenType.SAVE ::
  TokenType.EXPORT_PLOT ::
  TokenType.SHOW :: []

/- Values carried by tokens.  Python stores heterogeneous values in
`Token.value`: strings for identifiers/keywords/operators/string literals,
int or float for numeric literals, bool for boolean literals, None for EOF.
A float is kept as its source text; no verified property depends on float
arithmetic or normalisation. -/

inductive PyNum where
  | int (n : Int)
  | float (text : String)
deriving DecidableEq, Repr

inductive TokenValue where
  | vstr (s : String)
  | vnum (n : PyNum)
  | vbool (b : Bool)
  | vnone
deriving DecidableEq, Repr

/-- A lexical token (dataclass `Token` of noeta_lexer.py). -/
structure Token where
  type : TokenType
  value : TokenValue
  line : Nat
  column : Nat
deriving DecidableEq, Repr

/-- String payload of a token value; only applied where the Python code
uses `token.value` at string type (identifier/keyword/string tokens). -/
def TokenValue.strD : TokenValue → String
  | .vstr s => s
  | _ => ""

/-- Python `len(token.value)`: defined for strings, a TypeError otherwise
(`Parser.expect` evaluates it unguardedly on the last consumed token). -/
def TokenValue.pyLen? : TokenValue → Option Nat
  | .vstr s => some s.length
  | _ => none

/- Diagnostics subsystem (noeta_errors.py). -/

/-- Error categories (`ErrorCategory`), with their `.value` strings. -/
inductive ErrorCategory where
  | LEXER
  | SYNTAX
  | SEMANTIC
  | RUNTIME
  | TYPE
deriving DecidableEq, Repr

def ErrorCategory.value : ErrorCategory → String
  | .LEXER => "Lexical Error"
  | .SYNTAX => "Syntax Error"
  | .SEMANTIC => "Semantic Error"
  | .RUNTIME => "Runtime Error"
  | .TYPE => "Type Error"

/-- Location attached to an error (`ErrorContext`). -/
structure ErrorContext where
  line : Nat
  column : Nat
  length : Nat
  sourceLine : String
deriving DecidableEq, Repr

/-- `ErrorContext.__post_init__` clamps `length` to at least 1; every
construction site goes through this smart constructor. -/
def mkErrorContext (line column length : Nat) (sourceLine : String) : ErrorContext :=
  { line := line, column := column
    length := if length < 1 then 1 else length
    sourceLine := sourceLine }

/-- The compiler diagnostic (`NoetaError`).  The pretty string computed by
`__init__` for `Exception.__str__` is recomputed by the formatter functions
below when needed; the five attributes are what the code inspects. -/
structure NoetaError where
  message : String
  category : ErrorCategory
  context : Option ErrorContext
  hint : Option String
  suggestion : Option String
deriving DecidableEq, Repr

/-- Python exceptions that the embedded pipeline can raise.  `modelGap`
marks control paths of the source that this embedding does not model (it
is never produced on the fragment the theorems speak about). -/
inductive PyErr where
  | noeta (e : NoetaError)
  | pySyntaxError (msg : String)
  | pyValueError (msg : String)
  | pyAttributeError (name : String)
  | pyTypeError (msg : String)
  | modelGap (what : String)
deriving DecidableEq, Repr

/-- `str(e)` for the non-Noeta exceptions above, as interpolated by
`compile_noeta`'s RuntimeError wrapper (for an `AttributeError` raised by
`EnumMeta.__getattr__` the message is just the attribute name). -/
def PyErr.pyStr : PyErr → String
  | .noeta _ => ""
  | .pySyntaxError m => m
  | .pyValueError m => m
  | .pyAttributeError n => n
  | .pyTypeError m => m
  | .modelGap w => w

/- Lexer (class Lexer of noeta_lexer.py).  State is passed explicitly; the
helper loops of the source (skip_whitespace, skip_comment, read_string,
read_number, read_identifier) are expressed as functions of the characters
remaining at `pos`, after which the state advances over the consumed span. -/

structure LexState where
  source : List Char
  pos : Nat
  line : Nat
  column : Nat
deriving DecidableEq, Repr

def lexInit (s : String) : LexState :=
  { source := s.data, pos := 0, line := 1, column := 1 }

/-- `Lexer.current_char`. -/
def LexState.currentChar (st : LexState) : Option Char :=
  st.source.get? st.pos

/-- `Lexer.peek_char` with the default offset 1. -/
def LexState.peekChar (st : LexState) : Option Char :=
  st.source.get? (st.pos + 1)

/-- `Lexer.advance`: moves one character, resetting the column and bumping
the line on a newline. -/
def LexState.advance (st : LexState) : LexState :=
  if st.source.get? st.pos = some '\n' then
    { st with pos := st.pos + 1, line := st.line + 1, column := 1 }
  else
    { st with pos := st.pos + 1, column := st.column + 1 }

def LexState.advanceBy : LexState → Nat → LexState
  | st, 0 => st
  | st, n + 1 => st.advance.advanceBy n

/-- Python `str.split` on a newline: used by `Lexer._get_current_line`. -/
def splitLinesAux : List Char → List Char → List String
  | [], acc => [String.mk acc.reverse]
  | '\n' :: rest, acc => String.mk acc.reverse :: splitLinesAux rest []
  | c :: rest, acc => splitLinesAux rest (c :: acc)

def splitLines (s : List Char) : List String :=
  splitLinesAux s []

/-- `Lexer._get_current_line`. -/
def LexState.getCurrentLine (st : LexState) : String :=
  let lines := splitLines st.source
  if 0 < st.line ∧ st.line ≤ lines.length then lines.getD (st.line - 1) "" else ""

/- Python character classes, on the ASCII fragment the language uses. -/

def pyIsDigit (c : Char) : Bool := c.isDigit
def pyIsAlpha (c : Char) : Bool := c.isAlpha
def pyIsAlnum (c : Char) : Bool := c.isAlphanum

/-- Python `str.lower` (character-wise; the language's identifiers are
ASCII). -/
def pyLower (s : String) : String := String.mk (s.data.map Char.toLower)

/-- Python `str.replace` on the character list, non-overlapping and left
to right; the fuel is the input length, which every step decreases. -/
def pyReplaceAux (p : Char) (ps replacement : List Char) : Nat → List Char → List Char
  | 0, l => l
  | _ + 1, [] => []
  | fuel + 1, c :: rest =>
    if List.isPrefixOf (p :: ps) (c :: rest) then
      replacement ++ pyReplaceAux p ps replacement fuel ((c :: rest).drop (ps.length + 1))
    else
      c :: pyReplaceAux p ps replacement fuel rest

def pyReplace (s pattern replacement : String) : String :=
  match pattern.data with
  | [] => s
  | p :: ps => String.mk (pyReplaceAux p ps replacement.data s.data.length s.data)

/-- Characters consumed by `skip_whitespace`. -/
def countWhitespace : List Char → Nat
  | c :: rest => if c = ' ' ∨ c = '\t' ∨ c = '\r' then countWhitespace rest + 1 else 0
  | [] => 0

/-- Characters consumed by `skip_comment` (up to, excluding, the newline). -/
def countComment : List Char → Nat
  | c :: rest => if c ≠ '\n' then countComment rest + 1 else 0
  | [] => 0

/-- `Lexer.read_string`, applied to the characters after the opening quote:
the literal's value and the count of characters consumed (content, escape
pairs, and the closing quote if present — a missing closing quote is
tolerated, the scan simply stops at the end of input). -/
def readStringChars : List Char → String × Nat
  | [] => ("", 0)
  | '"' :: _ => ("", 1)
  | '\\' :: '"' :: rest =>
    let (v, k) := readStringChars rest
    ("\"" ++ v, k + 2)
  | c :: rest =>
    let (v, k) := readStringChars rest
    (String.mk [c] ++ v, k + 1)

/-- The span consumed by `Lexer.read_number` (digits and dots). -/
def takeNumberChars : List Char → List Char
  | c :: rest => if pyIsDigit c ∨ c = '.' then c :: takeNumberChars rest else []
  | [] => []

/-- The span consumed by `Lexer.read_identifier` (alphanumerics and `_`). -/
def takeIdentChars : List Char → List Char
  | c :: rest => if pyIsAlnum c ∨ c = '_' then c :: takeIdentChars rest else []
  | [] => []

/-- Python `int` of a digit string. -/
def pyIntOfDigits (l : List Char) : Int :=
  Int.ofNat (l.foldl (fun a c => a * 10 + (c.toNat - 48)) 0)

/-- The operator section of `Lexer.next_token`, with the branches in source
order.  The two-character `**` branch (noeta_lexer.py lines 930-934) sits
after the single-character `*` branch (lines 918-920), so it can never
match: it is kept here in its source position. -/
def opToken (st : LexState) (c : Char) : Except PyErr (Token × LexState) :=
  let one : TokenType → String → Except PyErr (Token × LexState) := fun t v =>
    .ok (⟨t, .vstr v, st.line, st.column⟩, st.advance)
  let two : TokenType → String → Except PyErr (Token × LexState) := fun t v =>
    .ok (⟨t, .vstr v, st.line, st.column⟩, st.advance.advance)
  if c = '=' ∧ st.peekChar = some '=' then two .EQ "=="
  else if c = '!' ∧ st.peekChar = some '=' then two .NEQ "!="
  else if c = '<' ∧ st.peekChar = some '=' then two .LTE "<="
  else if c = '>' ∧ st.peekChar = some '=' then two .GTE ">="
  else if c = '<' then one .LT "<"
  else if c = '>' then one .GT ">"
  else if c = '=' then one .ASSIGN "="
  else if c = '+' then one .PLUS "+"
  else if c = '-' then one .MINUS "-"
  else if c = '*' then one .STAR "*"
  else if c = '/' then one .SLASH "/"
  else if c = '%' then one .PERCENT "%"
  else if c = '*' ∧ st.peekChar = some '*' then two .EXPONENT "**"
  else if c = '.' then one .DOT "."
  else if c = '(' then one .LPAREN "("
  else if c = ')' then one .RPAREN ")"
  else if c = '{' then one .LBRACE "\x7b"
  else if c = '}' then one .RBRACE "\x7d"
  else if c = '[' then one .LBRACKET "["
  else if c = ']' then one .RBRACKET "]"
  else if c = ':' then one .COLON ":"
  else if c = ',' then one .COMMA ","
  else
    .error (.noeta
      { message := "Unexpected character \x27" ++ String.mk [c] ++ "\x27"
        category := .LEXER
        context := some (mkErrorContext st.line st.column 1 st.getCurrentLine)
        hint := some "This character is not valid in Noeta syntax"
        suggestion := none })

/-- `Lexer.next_token`.  The fuel only bounds the skip-loop iterations (each
one consumes at least one character); it never alters the result on inputs
where the source loop terminates, and exhaustion is a distinguished
`modelGap`, not a token. -/
def nextToken : Nat → LexState → Except PyErr (Token × LexState)
  | 0, _ => .error (.modelGap "lexer fuel")
  | fuel + 1, st =>
    match st.currentChar with
    | none => .ok (⟨.EOF, .vnone, st.line, st.column⟩, st)
    | some c =>
      if c = ' ' ∨ c = '\t' ∨ c = '\r' then
        nextToken fuel (st.advanceBy (countWhitespace (st.source.drop st.pos)))
      else if c = '\n' then
        .ok (⟨.NEWLINE, .vstr "\n", st.line, st.column⟩, st.advance)
      else if c = '#' then
        nextToken fuel (st.advanceBy (countComment (st.source.drop st.pos)))
      else if c = '"' then
        let (v, k) := readStringChars (st.source.drop (st.pos + 1))
        .ok (⟨.STRING_LITERAL, .vstr v, st.line, st.column⟩, st.advanceBy (k + 1))
      else if pyIsDigit c then
        let digits := takeNumberChars (st.source.drop st.pos)
        let text := String.mk digits
        let dots := digits.count '.'
        if dots = 0 then
          .ok (⟨.NUMERIC_LITERAL, .vnum (.int (pyIntOfDigits digits)), st.line, st.column⟩,
               st.advanceBy digits.length)
        else if dots = 1 then
          .ok (⟨.NUMERIC_LITERAL, .vnum (.float text), st.line, st.column⟩,
               st.advanceBy digits.length)
        else
          .error (.pyValueError ("could not convert string to float: \x27" ++ text ++ "\x27"))
      else if pyIsAlpha c ∨ c = '_' then
        let chars := takeIdentChars (st.source.drop st.pos)
        let text := String.mk chars
        let st' := st.advanceBy chars.length
        let low := pyLower text
        if low = "true" then .ok (⟨.BOOLEAN_LITERAL, .vbool true, st.line, st.column⟩, st')
        else if low = "false" then .ok (⟨.BOOLEAN_LITERAL, .vbool false, st.line, st.column⟩, st')
        else .ok (⟨(keywords low).getD .IDENTIFIER, .vstr text, st.line, st.column⟩, st')
      else
        opToken st c

/-- `Lexer.tokenize`: gather tokens, dropping NEWLINE, stopping after EOF. -/
def tokenizeLoop : Nat → LexState → Except PyErr (List Token)
  | 0, _ => .error (.modelGap "lexer fuel")
  | fuel + 1, st => do
    let (tok, st') ← nextToken (st.source.length + 1) st
    if tok.type = .EOF then
      .ok [tok]
    else if tok.type = .NEWLINE then
      tokenizeLoop fuel st'
    else
      (tok :: ·) <$> tokenizeLoop fuel st'

def tokenize (s : String) : Except PyErr (List Token) :=
  tokenizeLoop (s.length + 2) (lexInit s)

/- AST model (noeta_ast.py), restricted to the statement kinds exercised by
the verified properties, plus the full condition and expression families.
Every statement dataclass inherits line/column from ASTNode; __post_init__
initialises both to 0 and the parser never calls set_position, so the
fields are carried here with the value the constructor sites produce.  The
condition/expression dataclasses carry the same two fields in the source;
they are likewise never set nor read, and are omitted on those nodes. -/

/-- Values produced by `Parser.parse_value` (scalars, lists, dicts). -/
inductive Val where
  | vstr (s : String)
  | vnum (n : PyNum)
  | vbool (b : Bool)
  | vnone
  | vlist (items : List Val)
  | vdict (items : List (String × Val))

/-- A token value, as the parser passes it through unchanged. -/
def TokenValue.toVal : TokenValue → Val
  | .vstr s => .vstr s
  | .vnum n => .vnum n
  | .vbool b => .vbool b
  | .vnone => .vnone

/-- Condition trees (`CompoundConditionNode` and its subclasses). -/
inductive Cond where
  | binary (left : Cond) (operator : String) (right : Cond)
  | notCond (condition : Cond)
  | comparison (left : String) (operator : String) (right : Val)
  | between (column : String) (min_value max_value : Val)
  | inCond (column : String) (values : List Val)
  | stringMatch (column match_type pattern : String)
  | nullCheck (column : String) (is_not_null : Bool)

/-- Expression trees (`ExpressionNode` and its subclasses). -/
inductive Expr where
  | binOp (left : Expr) (operator : String) (right : Expr)
  | unaryOp (operator : String) (operand : Expr)
  | literal (value : Val)
  | identifier (name : String)
  | functionCall (function_name : String) (arguments : List Expr)
  | conditionalExpr (condition : Cond) (true_expr false_expr : Expr)

structure LoadNode where
  filepath : String
  aliasName : String  -- source field name: alias (a Lean keyword)
  format : Option String
  params : Option (List (String × Val))
  line : Nat
  column : Nat

structure SelectNode where
  source_alias : String
  columns : List String
  new_alias : Option String
  line : Nat
  column : Nat

structure UpdatedFilterNode where
  source_alias : String
  condition : Cond
  new_alias : Option String
  line : Nat
  column : Nat

structure DescribeNode where
  source_alias : String
  columns : Option (List String)
  line : Nat
  column : Nat

structure OutliersNode where
  source_alias : String
  method : Val
  columns : List String
  line : Nat
  column : Nat

/-- A statement, tagged by node kind. -/
inductive Stmt where
  | load (node : LoadNode)
  | select (node : SelectNode)
  | filter (node : UpdatedFilterNode)
  | describe (node : DescribeNode)
  | outliers (node : OutliersNode)

structure ProgramNode where
  statements : List Stmt

/- Parser (class Parser of noeta_parser.py).  The token list and the source
text are read-only; `pos` is threaded explicitly.  Failures return the
exception the Python code raises at that site: `NoetaError` from `expect`,
bare Python `SyntaxError` from the `raise SyntaxError(...)` sites, and
`AttributeError`/`TypeError` where the source evaluates an attribute or
`len` that does not exist. -/

structure PState where
  tokens : List Token
  source_code : String

def PState.source_lines (p : PState) : List String :=
  if p.source_code = "" then [] else splitLines p.source_code.data

/-- `Parser._get_source_line`. -/
def PState.get_source_line (p : PState) (line_num : Nat) : String :=
  let lines := p.source_lines
  if lines = [] ∨ line_num < 1 ∨ lines.length < line_num then ""
  else lines.getD (line_num - 1) ""

/-- `get_token_type_description` of noeta_errors.py. -/
def tokenTypeDescriptions : List (String × String) :=
  [("IDENTIFIER", "dataset or column name"),
   ("STRING_LITERAL", "string value"),
   ("NUMERIC_LITERAL", "number"),
   ("INTEGER", "integer number"),
   ("FLOAT", "decimal number"),
   ("BOOLEAN", "true or false"),
   ("NONE", "None value"),
   ("LPAREN", "opening parenthesis ("),
   ("RPAREN", "closing parenthesis )"),
   ("LBRACE", "opening brace \x7b"),
   ("RBRACE", "closing brace \x7d"),
   ("LBRACKET", "opening bracket ["),
   ("RBRACKET", "closing bracket ]"),
   ("COMMA", "comma"),
   ("DOT", "dot"),
   ("EQUALS", "equals sign ="),
   ("COLON", "colon :"),
   ("SEMICOLON", "semicolon"),
   ("AS", "\"as\" keyword"),
   ("WITH", "\"with\" keyword"),
   ("WHERE", "\"where\" keyword"),
   ("COLUMN", "\"column\" keyword"),
   ("COLUMNS", "\"columns\" keyword"),
   ("EOF", "end of file")]

def get_token_type_description (token_type_name : String) : String :=
  (tokenTypeDescriptions.lookup token_type_name).getD
    (pyReplace (pyLower token_type_name) "_" " ")

/-- `Parser._friendly_token_name`. -/
def friendlyTokenName (t : TokenType) : String :=
  get_token_type_description t.pyName

/-- Python truthiness of a token value (`if ... and token.value`). -/
def TokenValue.pyTruthy : TokenValue → Bool
  | .vstr s => s ≠ ""
  | .vnum (.int n) => n ≠ 0
  | .vnum (.float t) => t.data.any (fun c => c.isDigit ∧ c ≠ '0')
  | .vbool b => b
  | .vnone => false

/-- Approximation of the dataclass repr `Token(...)` that Python
interpolates into a few SyntaxError messages (the numeric enum index that
appears inside `<TokenType.X: i>` is elided, and string-value escaping is
left as-is; no verified property reads these messages). -/
def TokenValue.pyRepr : TokenValue → String
  | .vstr s => "\x27" ++ s ++ "\x27"
  | .vnum (.int n) => toString n
  | .vnum (.float t) => t
  | .vbool true => "True"
  | .vbool false => "False"
  | .vnone => "None"

def tokenPyRepr : Option Token → String
  | none => "None"
  | some t =>
    "Token(type=TokenType." ++ t.type.pyName ++ ", value=" ++ t.value.pyRepr ++
      ", line=" ++ toString t.line ++ ", column=" ++ toString t.column ++ ")"

/-- `Parser._create_error_context`, called with an existing token.  The
source computes `len(token.value)` when the value is truthy, which raises
TypeError on a non-string value. -/
def create_error_context (p : PState) (token : Token) : Except PyErr (Option ErrorContext) := do
  let source_line := p.get_source_line token.line
  let length ←
    if token.value.pyTruthy then
      match token.value.pyLen? with
      | some n => pure n
      | none => .error (.pyTypeError "object has no len()")
    else
      pure 1
  return some (mkErrorContext token.line token.column length source_line)

/-- `Parser.expect`. -/
def expect (p : PState) (pos : Nat) (token_type : TokenType) (context : String) :
    Except PyErr (Token × Nat) := do
  let context_msg := if context = "" then "" else " in " ++ context
  let eofCase : Except PyErr (Token × Nat) := do
    let message :=
      "Unexpected end of file" ++ context_msg ++ ". Expected " ++ friendlyTokenName token_type
    let error_context ←
      if 0 < pos ∧ pos - 1 < p.tokens.length then do
        let last := p.tokens.getD (pos - 1) ⟨.EOF, .vnone, 0, 0⟩
        let n ←
          match last.value.pyLen? with
          | some n => pure n
          | none => .error (.pyTypeError "object has no len()")
        pure (some (mkErrorContext last.line (last.column + n) 1 (p.get_source_line last.line)))
      else
        pure none
    .error (.noeta
      { message := message
        category := .SYNTAX
        context := error_context
        hint := "The file ended before the " ++ (if context = "" then "statement" else context) ++
          " was complete"
        suggestion := none })
  match p.tokens.get? pos with
  | none => eofCase
  | some token =>
    if token.type = .EOF then
      eofCase
    else if token.type ≠ token_type then do
      let message := "Expected " ++ friendlyTokenName token_type ++ ", got " ++
        friendlyTokenName token.type ++ context_msg
      let ctx ← create_error_context p token
      .error (.noeta
        { message := message
          category := .SYNTAX
          context := ctx
          hint := "Check the syntax for " ++ (if context = "" then "this operation" else context)
          suggestion := none })
    else
      .ok (token, pos + 1)

/-- `Parser.match` (several acceptable kinds). -/
def pmatch (p : PState) (pos : Nat) (token_types : List TokenType) : Bool :=
  match p.tokens.get? pos with
  | some token => token_types.contains token.type
  | none => false

/- Value parsing (`parse_value`, `parse_list_value`, `parse_dict_value`).
A fuel argument bounds loop/nesting depth; theorems instantiate it past
exhaustion, and exhaustion is the distinguished `modelGap`. -/

/-- Python dict assignment `result[key] = value`: replaces in place,
appends when absent. -/
def dictSet : List (String × Val) → String → Val → List (String × Val)
  | [], k, v => [(k, v)]
  | (k1, v1) :: rest, k, v =>
    if k1 = k then (k1, v) :: rest else (k1, v1) :: dictSet rest k v

/-- The key of a dict entry: a string literal if present, else an
identifier (`parse_dict_value`). -/
def parse_dict_key (p : PState) (pos : Nat) : Except PyErr (String × Nat) :=
  if pmatch p pos [.STRING_LITERAL] then do
    let (t, pos) ← expect p pos .STRING_LITERAL ""
    .ok (t.value.strD, pos)
  else do
    let (t, pos) ← expect p pos .IDENTIFIER ""
    .ok (t.value.strD, pos)

/- The five value-parsing routines are mutually recursive through the
fuel; they are packaged as one structural recursion over the fuel (a
record of the five functions per fuel level) so that every theorem can
evaluate them definitionally.  Bodies are the direct transcriptions of
`parse_value`, `parse_list_value` (with its comma loop),
`parse_dict_value` (with its comma loop). -/

structure ValueParsers where
  value : PState → Nat → Except PyErr (Val × Nat)
  listValue : PState → Nat → Except PyErr (Val × Nat)
  listRest : PState → Nat → Except PyErr (List Val × Nat)
  dictValue : PState → Nat → Except PyErr (Val × Nat)
  dictRest : PState → Nat → List (String × Val) →
    Except PyErr (List (String × Val) × Nat)

def valueParsersFuel : Nat → ValueParsers
  | 0 =>
    { value := fun _ _ => .error (.modelGap "parser fuel")
      listValue := fun _ _ => .error (.modelGap "parser fuel")
      listRest := fun _ _ => .error (.modelGap "parser fuel")
      dictValue := fun _ _ => .error (.modelGap "parser fuel")
      dictRest := fun _ _ _ => .error (.modelGap "parser fuel") }
  | fuel + 1 =>
    let prev := valueParsersFuel fuel
    { value := fun p pos =>
        match p.tokens.get? pos with
        | none => .error (.pySyntaxError "Expected value")
        | some token =>
          if token.type = .STRING_LITERAL then .ok (token.value.toVal, pos + 1)
          else if token.type = .NUMERIC_LITERAL then .ok (token.value.toVal, pos + 1)
          else if token.type = .IDENTIFIER ∧
              (pyLower token.value.strD = "true" ∨ pyLower token.value.strD = "false") then
            .ok (.vbool (pyLower token.value.strD = "true"), pos + 1)
          else if token.type = .IDENTIFIER ∧
              (pyLower token.value.strD = "none" ∨ pyLower token.value.strD = "null") then
            .ok (.vnone, pos + 1)
          else if token.type = .LBRACKET then
            prev.listValue p pos
          else if token.type = .LBRACE then
            prev.dictValue p pos
          else if token.type = .IDENTIFIER then
            .ok (.vstr token.value.strD, pos + 1)
          else
            .error (.pySyntaxError
              ("Unexpected token type for value: TokenType." ++ token.type.pyName))
      listValue := fun p pos => do
        let (_, pos) ← expect p pos .LBRACKET ""
        if pmatch p pos [.RBRACKET] then
          .ok (.vlist [], pos + 1)
        else do
          let (v, pos) ← prev.value p pos
          let (vs, pos) ← prev.listRest p pos
          let (_, pos) ← expect p pos .RBRACKET ""
          .ok (.vlist (v :: vs), pos)
      listRest := fun p pos =>
        if pmatch p pos [.COMMA] then
          if pmatch p (pos + 1) [.RBRACKET] then .ok ([], pos + 1)
          else do
            let (v, pos2) ← prev.value p (pos + 1)
            let (vs, pos2) ← prev.listRest p pos2
            .ok (v :: vs, pos2)
        else .ok ([], pos)
      dictValue := fun p pos => do
        let (_, pos) ← expect p pos .LBRACE ""
        if pmatch p pos [.RBRACE] then
          .ok (.vdict [], pos + 1)
        else do
          let (key, pos) ← parse_dict_key p pos
          let (_, pos) ← expect p pos .COLON ""
          let (v, pos) ← prev.value p pos
          let (items, pos) ← prev.dictRest p pos (dictSet [] key v)
          let (_, pos) ← expect p pos .RBRACE ""
          .ok (.vdict items, pos)
      dictRest := fun p pos acc =>
        if pmatch p pos [.COMMA] then
          if pmatch p (pos + 1) [.RBRACE] then .ok (acc, pos + 1)
          else do
            let (key, pos2) ← parse_dict_key p (pos + 1)
            let (_, pos2) ← expect p pos2 .COLON ""
            let (v, pos2) ← prev.value p pos2
            prev.dictRest p pos2 (dictSet acc key v)
        else .ok (acc, pos) }

/-- `Parser.parse_value`. -/
def parse_value (fuel : Nat) (p : PState) (pos : Nat) : Except PyErr (Val × Nat) :=
  (valueParsersFuel fuel).value p pos

/-- `Parser.parse_list_value` (empty and trailing-comma tolerant). -/
def parse_list_value (fuel : Nat) (p : PState) (pos : Nat) : Except PyErr (Val × Nat) :=
  (valueParsersFuel fuel).listValue p pos

/-- `Parser.parse_dict_value` (string or bare-identifier keys). -/
def parse_dict_value (fuel : Nat) (p : PState) (pos : Nat) : Except PyErr (Val × Nat) :=
  (valueParsersFuel fuel).dictValue p pos

/-- `Parser.parse_identifier_or_keyword`: an identifier, or one of nine
reserved keywords allowed as column names. -/
def parse_identifier_or_keyword (p : PState) (pos : Nat) : Except PyErr (String × Nat) :=
  match p.tokens.get? pos with
  | none => .error (.pyAttributeError "type")
  | some token =>
    if token.type = .IDENTIFIER then .ok (token.value.strD, pos + 1)
    else if ([.TARGET, .INDEX, .COLUMN, .VALUES, .N, .MIN, .MAX, .METHOD,
        .SUBSET] : List TokenType).contains token.type then
      .ok (token.value.strD, pos + 1)
    else
      .error (.pySyntaxError
        ("Expected identifier or column name, got TokenType." ++ token.type.pyName))

/-- The comma loop shared by `parse_column_list` and
`parse_column_list_natural`. -/
def parse_column_rest : Nat → PState → Nat → Except PyErr (List String × Nat)
  | 0, _, _ => .error (.modelGap "parser fuel")
  | fuel + 1, p, pos =>
    if pmatch p pos [.COMMA] then do
      let (c, pos') ← parse_identifier_or_keyword p (pos + 1)
      let (cs, pos') ← parse_column_rest fuel p pos'
      .ok (c :: cs, pos')
    else .ok ([], pos)

/-- `Parser.parse_column_list`: `{col1, col2, ...}`. -/
def parse_column_list (fuel : Nat) (p : PState) (pos : Nat) :
    Except PyErr (List String × Nat) := do
  let (_, pos) ← expect p pos .LBRACE ""
  let (c, pos) ← parse_identifier_or_keyword p pos
  let (cs, pos) ← parse_column_rest fuel p pos
  let (_, pos) ← expect p pos .RBRACE ""
  .ok (c :: cs, pos)

/-- `Parser.parse_column_list_natural`: bare comma-separated columns. -/
def parse_column_list_natural (fuel : Nat) (p : PState) (pos : Nat) :
    Except PyErr (List String × Nat) := do
  let (c, pos) ← parse_identifier_or_keyword p pos
  let (cs, pos) ← parse_column_rest fuel p pos
  .ok (c :: cs, pos)

/- Condition sub-parser (`parse_where_clause` down to
`parse_primary_condition`), the precedence-climbing boolean grammar. -/

/- The condition-parsing routines (`parse_where_clause` down to
`parse_primary_condition`) are mutually recursive through the fuel; they
are packaged as one structural recursion on the fuel so theorems can
evaluate them definitionally.  Bodies are direct transcriptions of the
source methods (the `_rest` functions are the `while` loops). -/

structure CondParsers where
  whereClause : PState → Nat → Except PyErr (Cond × Nat)
  orCond : PState → Nat → Except PyErr (Cond × Nat)
  orRest : PState → Nat → Cond → Except PyErr (Cond × Nat)
  andCond : PState → Nat → Except PyErr (Cond × Nat)
  andRest : PState → Nat → Cond → Except PyErr (Cond × Nat)
  notCond : PState → Nat → Except PyErr (Cond × Nat)
  primaryCond : PState → Nat → Except PyErr (Cond × Nat)

def condParsersFuel : Nat → CondParsers
  | 0 =>
    { whereClause := fun _ _ => .error (.modelGap "parser fuel")
      orCond := fun _ _ => .error (.modelGap "parser fuel")
      orRest := fun _ _ _ => .error (.modelGap "parser fuel")
      andCond := fun _ _ => .error (.modelGap "parser fuel")
      andRest := fun _ _ _ => .error (.modelGap "parser fuel")
      notCond := fun _ _ => .error (.modelGap "parser fuel")
      primaryCond := fun _ _ => .error (.modelGap "parser fuel") }
  | fuel + 1 =>
    let prev := condParsersFuel fuel
    { whereClause := fun p pos => prev.orCond p pos
      orCond := fun p pos => do
        let (left, pos) ← prev.andCond p pos
        prev.orRest p pos left
      orRest := fun p pos left =>
        if pmatch p pos [.OR] then do
          let (right, pos2) ← prev.andCond p (pos + 1)
          prev.orRest p pos2 (.binary left "or" right)
        else .ok (left, pos)
      andCond := fun p pos => do
        let (left, pos) ← prev.notCond p pos
        prev.andRest p pos left
      andRest := fun p pos left =>
        if pmatch p pos [.AND] then do
          let (right, pos2) ← prev.notCond p (pos + 1)
          prev.andRest p pos2 (.binary left "and" right)
        else .ok (left, pos)
      notCond := fun p pos =>
        if pmatch p pos [.NOT] then do
          let (c, pos2) ← prev.notCond p (pos + 1)
          .ok (.notCond c, pos2)
        else prev.primaryCond p pos
      primaryCond := fun p pos =>
        if pmatch p pos [.LPAREN] then do
          let (c, pos2) ← prev.whereClause p (pos + 1)
          let (_, pos2) ← expect p pos2 .RPAREN ""
          .ok (c, pos2)
        else if ¬ pmatch p pos [.IDENTIFIER] then
          .error (.pySyntaxError
            ("Expected column name in condition, got " ++ tokenPyRepr (p.tokens.get? pos)))
        else do
          let (colTok, pos) ← expect p pos .IDENTIFIER ""
          let column := colTok.value.strD
          if pmatch p pos [.BETWEEN] then do
            let (min_value, pos2) ← parse_value fuel p (pos + 1)
            let (_, pos2) ← expect p pos2 .AND ""
            let (max_value, pos2) ← parse_value fuel p pos2
            .ok (.between column min_value max_value, pos2)
          else if pmatch p pos [.IN] then do
            let (vs, pos2) ← parse_list_value fuel p (pos + 1)
            match vs with
            | .vlist values => .ok (.inCond column values, pos2)
            | _ => .error (.modelGap "parse_list_value result")
          else if pmatch p pos [.CONTAINS] then do
            let (t, pos2) ← expect p (pos + 1) .STRING_LITERAL ""
            .ok (.stringMatch column "contains" t.value.strD, pos2)
          else if pmatch p pos [.STARTS_WITH] then do
            let (t, pos2) ← expect p (pos + 1) .STRING_LITERAL ""
            .ok (.stringMatch column "starts_with" t.value.strD, pos2)
          else if pmatch p pos [.ENDS_WITH] then do
            let (t, pos2) ← expect p (pos + 1) .STRING_LITERAL ""
            .ok (.stringMatch column "ends_with" t.value.strD, pos2)
          else if pmatch p pos [.MATCHES] then do
            let (t, pos2) ← expect p (pos + 1) .STRING_LITERAL ""
            .ok (.stringMatch column "matches" t.value.strD, pos2)
          else if pmatch p pos [.IS] then do
            let (is_not, pos2) :=
              if pmatch p (pos + 1) [.NOT] then (true, pos + 2) else (false, pos + 1)
            let (_, pos2) ← expect p pos2 .NULL ""
            .ok (.nullCheck column is_not, pos2)
          else if pmatch p pos [.EQ, .NEQ, .LT, .GT, .LTE, .GTE] then do
            let op :=
              match p.tokens.get? pos with
              | some t =>
                match t.type with
                | .EQ => "==" | .NEQ => "!=" | .LT => "<"
                | .GT => ">" | .LTE => "<=" | .GTE => ">="
                | _ => "=="
              | none => "=="
            let (value, pos2) ← parse_value fuel p (pos + 1)
            .ok (.comparison column op value, pos2)
          else
            .error (.pySyntaxError
              ("Expected comparison operator or keyword after column \x27" ++ column ++
                "\x27, got " ++ tokenPyRepr (p.tokens.get? pos))) }

/-- `Parser.parse_where_clause` = `parse_or_condition`. -/
def parse_where_clause (fuel : Nat) (p : PState) (pos : Nat) : Except PyErr (Cond × Nat) :=
  (condParsersFuel fuel).whereClause p pos

/-- `Parser.parse_primary_condition`: atoms of the condition grammar. -/
def parse_primary_condition (fuel : Nat) (p : PState) (pos : Nat) :
    Except PyErr (Cond × Nat) :=
  (condParsersFuel fuel).primaryCond p pos

/- Statement routines of the modelled fragment, and the flat dispatcher. -/

/-- The optional trailing `as <alias>` shared by the statement routines. -/
def parse_optional_as (p : PState) (pos : Nat) : Except PyErr (Option String × Nat) :=
  if pmatch p pos [.AS] then do
    let (t, pos') ← expect p (pos + 1) .IDENTIFIER ""
    .ok (some t.value.strD, pos')
  else .ok (none, pos)

/-- `Parser.parse_load_enhanced`.  The five format-keyword branches
dispatch to routines outside the modelled fragment; the plain-path branch
(`load "<file>" as <alias>`) builds `LoadNode(file_path, alias)`, leaving
format and params at their `None` defaults. -/
def parse_load_enhanced (p : PState) (pos : Nat) : Except PyErr (Stmt × Nat) := do
  let (_, pos) ← expect p pos .LOAD ""
  if pmatch p pos [.CSV] then .error (.modelGap "parse_load_csv")
  else if pmatch p pos [.JSON] then .error (.modelGap "parse_load_json")
  else if pmatch p pos [.EXCEL] then .error (.modelGap "parse_load_excel")
  else if pmatch p pos [.PARQUET] then .error (.modelGap "parse_load_parquet")
  else if pmatch p pos [.SQL] then .error (.modelGap "parse_load_sql")
  else if pmatch p pos [.STRING_LITERAL] then do
    let (fileTok, pos) ← expect p pos .STRING_LITERAL ""
    let (_, pos) ← expect p pos .AS ""
    let (aliasTok, pos) ← expect p pos .IDENTIFIER ""
    .ok (.load
      { filepath := fileTok.value.strD, aliasName := aliasTok.value.strD
        format := none, params := none, line := 0, column := 0 }, pos)
  else
    .error (.pySyntaxError
      "Expected file format (csv, json, excel, parquet, sql) or file path after \x27load\x27")

/-- `Parser.parse_select` (classic `{...}` and natural `with ...` forms,
optional trailing alias). -/
def parse_select (fuel : Nat) (p : PState) (pos : Nat) : Except PyErr (Stmt × Nat) := do
  let (_, pos) ← expect p pos .SELECT ""
  let (srcTok, pos) ← expect p pos .IDENTIFIER ""
  let (columns, pos) ←
    if pmatch p pos [.WITH] then
      parse_column_list_natural fuel p (pos + 1)
    else if pmatch p pos [.LBRACE] then
      parse_column_list fuel p pos
    else
      .error (.pySyntaxError "Expected \x27with\x27 or \x27\x7b\x27 after select source")
  let (new_alias, pos) ← parse_optional_as p pos
  .ok (.select
    { source_alias := srcTok.value.strD, columns := columns, new_alias := new_alias
      line := 0, column := 0 }, pos)

/-- `Parser.parse_filter`: `filter <source> where <condition> [as <alias>]`. -/
def parse_filter (fuel : Nat) (p : PState) (pos : Nat) : Except PyErr (Stmt × Nat) := do
  let (_, pos) ← expect p pos .FILTER ""
  let (srcTok, pos) ← expect p pos .IDENTIFIER ""
  let (_, pos) ← expect p pos .WHERE ""
  let (condition, pos) ← parse_where_clause fuel p pos
  let (new_alias, pos) ← parse_optional_as p pos
  .ok (.filter
    { source_alias := srcTok.value.strD, condition := condition, new_alias := new_alias
      line := 0, column := 0 }, pos)

/-- `Parser.parse_describe`: `describe <source> [columns {cols}]`. -/
def parse_describe (fuel : Nat) (p : PState) (pos : Nat) : Except PyErr (Stmt × Nat) := do
  let (_, pos) ← expect p pos .DESCRIBE ""
  let (srcTok, pos) ← expect p pos .IDENTIFIER ""
  let (columns, pos) ←
    if pmatch p pos [.COLUMNS] then do
      let (cs, pos') ← parse_column_list fuel p (pos + 1)
      pure (some cs, pos')
    else
      pure ((none : Option (List String)), pos)
  .ok (.describe
    { source_alias := srcTok.value.strD, columns := columns, line := 0, column := 0 }, pos)

/-- `Parser.parse_outliers`: `outliers <source> with method=<m> columns {cols}`. -/
def parse_outliers (fuel : Nat) (p : PState) (pos : Nat) : Except PyErr (Stmt × Nat) := do
  let (_, pos) ← expect p pos .OUTLIERS ""
  let (srcTok, pos) ← expect p pos .IDENTIFIER ""
  let (_, pos) ← expect p pos .WITH ""
  let (_, pos) ← expect p pos .METHOD ""
  let (_, pos) ← expect p pos .ASSIGN ""
  let (method, pos) ← parse_value fuel p pos
  let (_, pos) ← expect p pos .COLUMNS ""
  let (columns, pos) ← parse_column_list fuel p pos
  .ok (.outliers
    { source_alias := srcTok.value.strD, method := method, columns := columns
      line := 0, column := 0 }, pos)

/-- `Parser.parse_statement`: flat per-keyword dispatch.  Branches for the
~150 statement kinds outside the modelled fragment are mapped to
`modelGap`; the final fallback raises the bare Python SyntaxError of the
source. -/
def parse_statement (fuel : Nat) (p : PState) (pos : Nat) :
    Except PyErr (Option Stmt × Nat) :=
  match p.tokens.get? pos with
  | none => .ok (none, pos)
  | some token =>
    if token.type = .LOAD then do
      let (s, pos') ← parse_load_enhanced p pos
      .ok (some s, pos')
    else if token.type = .SELECT then do
      let (s, pos') ← parse_select fuel p pos
      .ok (some s, pos')
    else if token.type = .FILTER then do
      let (s, pos') ← parse_filter fuel p pos
      .ok (some s, pos')
    else if token.type = .DESCRIBE then do
      let (s, pos') ← parse_describe fuel p pos
      .ok (some s, pos')
    else if token.type = .OUTLIERS then do
      let (s, pos') ← parse_outliers fuel p pos
      .ok (some s, pos')
    else if dispatchedElsewhere.contains token.type then
      .error (.modelGap ("parse_statement branch TokenType." ++ token.type.pyName))
    else
      .error (.pySyntaxError ("Unexpected token: TokenType." ++ token.type.pyName))

/-- The statement loop of `Parser.parse`. -/
def parse_program_loop : Nat → PState → Nat → Except PyErr (List Stmt)
  | 0, _, _ => .error (.modelGap "parser fuel")
  | fuel + 1, p, pos =>
    match p.tokens.get? pos with
    | none => .ok []
    | some token =>
      if token.type = .EOF then .ok []
      else do
        let (stmt?, pos') ← parse_statement fuel p pos
        let rest ← parse_program_loop fuel p pos'
        match stmt? with
        | some s => .ok (s :: rest)
        | none => .ok rest

/-- `Parser.parse`: tokens to `ProgramNode`. -/
def parseProgram (tokens : List Token) (source_code : String) : Except PyErr ProgramNode := do
  let p : PState := { tokens := tokens, source_code := source_code }
  let stmts ← parse_program_loop (tokens.length + 1) p 0
  .ok { statements := stmts }

/- Expression sub-parser (`parse_expression` at noeta_parser.py line 2040
and its precedence levels).  Two of its levels name enum members that the
TokenType enum does not define: `parse_multiplicative` evaluates
`TokenType.MULTIPLY` (and would go on to DIVIDE/MODULO; the members are
named STAR/SLASH/PERCENT) in its while-condition, and `parse_conditional`
evaluates `TokenType.ELSE`.  `EnumMeta.__getattr__` raises
`AttributeError(<name>)` at those evaluations, before any token is
examined; the embedding throws at exactly those program points. -/

/- The expression levels are mutually recursive through the fuel; they
are packaged as one structural recursion on the fuel so theorems can
evaluate them definitionally. -/

structure ExprParsers where
  expression : PState → Nat → Except PyErr (Expr × Nat)
  conditional : PState → Nat → Except PyErr (Expr × Nat)
  logicalOr : PState → Nat → Except PyErr (Expr × Nat)
  logicalOrRest : PState → Nat → Expr → Except PyErr (Expr × Nat)
  logicalAnd : PState → Nat → Except PyErr (Expr × Nat)
  logicalAndRest : PState → Nat → Expr → Except PyErr (Expr × Nat)
  comparison : PState → Nat → Except PyErr (Expr × Nat)
  additive : PState → Nat → Except PyErr (Expr × Nat)
  additiveRest : PState → Nat → Expr → Except PyErr (Expr × Nat)
  multiplicative : PState → Nat → Except PyErr (Expr × Nat)
  power : PState → Nat → Except PyErr (Expr × Nat)
  unary : PState → Nat → Except PyErr (Expr × Nat)
  primary : PState → Nat → Except PyErr (Expr × Nat)
  argRest : PState → Nat → Except PyErr (List Expr × Nat)

def exprParsersFuel : Nat → ExprParsers
  | 0 =>
    { expression := fun _ _ => .error (.modelGap "parser fuel")
      conditional := fun _ _ => .error (.modelGap "parser fuel")
      logicalOr := fun _ _ => .error (.modelGap "parser fuel")
      logicalOrRest := fun _ _ _ => .error (.modelGap "parser fuel")
      logicalAnd := fun _ _ => .error (.modelGap "parser fuel")
      logicalAndRest := fun _ _ _ => .error (.modelGap "parser fuel")
      comparison := fun _ _ => .error (.modelGap "parser fuel")
      additive := fun _ _ => .error (.modelGap "parser fuel")
      additiveRest := fun _ _ _ => .error (.modelGap "parser fuel")
      multiplicative := fun _ _ => .error (.modelGap "parser fuel")
      power := fun _ _ => .error (.modelGap "parser fuel")
      unary := fun _ _ => .error (.modelGap "parser fuel")
      primary := fun _ _ => .error (.modelGap "parser fuel")
      argRest := fun _ _ => .error (.modelGap "parser fuel") }
  | fuel + 1 =>
    let prev := exprParsersFuel fuel
    { expression := fun p pos => prev.conditional p pos
      conditional := fun p pos => do
        -- `parse_conditional` evaluates `TokenType.ELSE` after the inner
        -- `parse_logical_or` on the WHERE branch; no such member exists.
        let (expr, pos) ← prev.logicalOr p pos
        if pmatch p pos [.WHERE] then do
          let (_, _) ← prev.logicalOr p (pos + 1)
          .error (.pyAttributeError "ELSE")
        else .ok (expr, pos)
      logicalOr := fun p pos => do
        let (left, pos) ← prev.logicalAnd p pos
        prev.logicalOrRest p pos left
      logicalOrRest := fun p pos left =>
        if pmatch p pos [.OR] then do
          let (right, pos2) ← prev.logicalAnd p (pos + 1)
          prev.logicalOrRest p pos2 (.binOp left "or" right)
        else .ok (left, pos)
      logicalAnd := fun p pos => do
        let (left, pos) ← prev.comparison p pos
        prev.logicalAndRest p pos left
      logicalAndRest := fun p pos left =>
        if pmatch p pos [.AND] then do
          let (right, pos2) ← prev.comparison p (pos + 1)
          prev.logicalAndRest p pos2 (.binOp left "and" right)
        else .ok (left, pos)
      comparison := fun p pos => do
        let (left, pos) ← prev.additive p pos
        if pmatch p pos [.EQ, .NEQ, .LT, .GT, .LTE, .GTE] then do
          let op :=
            match p.tokens.get? pos with
            | some t =>
              match t.type with
              | .EQ => "==" | .NEQ => "!=" | .LT => "<"
              | .GT => ">" | .LTE => "<=" | .GTE => ">="
              | _ => "=="
            | none => "=="
          let (right, pos2) ← prev.additive p (pos + 1)
          .ok (.binOp left op right, pos2)
        else .ok (left, pos)
      additive := fun p pos => do
        let (left, pos) ← prev.multiplicative p pos
        prev.additiveRest p pos left
      additiveRest := fun p pos left =>
        if pmatch p pos [.PLUS, .MINUS] then do
          let op := if pmatch p pos [.PLUS] then "+" else "-"
          let (right, pos2) ← prev.multiplicative p (pos + 1)
          prev.additiveRest p pos2 (.binOp left op right)
        else .ok (left, pos)
      multiplicative := fun p pos => do
        -- `parse_multiplicative` parses its left operand and then evaluates
        -- `self.match(TokenType.MULTIPLY, ...)` (noeta_parser.py line 2151);
        -- no such member exists, so the attribute access raises there.
        let (_, _) ← prev.power p pos
        .error (.pyAttributeError "MULTIPLY")
      power := fun p pos => do
        let (left, pos) ← prev.unary p pos
        if pmatch p pos [.EXPONENT] then do
          let (right, pos2) ← prev.power p (pos + 1)
          .ok (.binOp left "**" right, pos2)
        else .ok (left, pos)
      unary := fun p pos =>
        if pmatch p pos [.MINUS] then do
          let (e, pos2) ← prev.unary p (pos + 1)
          .ok (.unaryOp "-" e, pos2)
        else if pmatch p pos [.NOT] then do
          let (e, pos2) ← prev.unary p (pos + 1)
          .ok (.unaryOp "not" e, pos2)
        else prev.primary p pos
      primary := fun p pos =>
        -- `parse_primary`; its BOOLEAN_LITERAL branch evaluates
        -- `token.value.lower()` on a Python bool and raises AttributeError.
        match p.tokens.get? pos with
        | none => .error (.pyAttributeError "type")
        | some token =>
          if token.type = .NUMERIC_LITERAL then .ok (.literal token.value.toVal, pos + 1)
          else if token.type = .STRING_LITERAL then .ok (.literal token.value.toVal, pos + 1)
          else if token.type = .BOOLEAN_LITERAL then .error (.pyAttributeError "lower")
          else if token.type = .NULL then .ok (.literal .vnone, pos + 1)
          else if token.type = .IDENTIFIER then
            if pmatch p (pos + 1) [.LPAREN] then do
              let (args, pos2) ←
                if pmatch p (pos + 2) [.RPAREN] then pure (([] : List Expr), pos + 2)
                else do
                  let (a, pos2) ← prev.expression p (pos + 2)
                  let (as_, pos2) ← prev.argRest p pos2
                  pure (a :: as_, pos2)
              let (_, pos2) ← expect p pos2 .RPAREN ""
              .ok (.functionCall token.value.strD args, pos2)
            else .ok (.identifier token.value.strD, pos + 1)
          else if token.type = .LPAREN then do
            let (e, pos2) ← prev.expression p (pos + 1)
            let (_, pos2) ← expect p pos2 .RPAREN ""
            .ok (e, pos2)
          else
            .error (.pySyntaxError
              ("Unexpected token in expression: " ++ tokenPyRepr (some token)))
      argRest := fun p pos =>
        if pmatch p pos [.COMMA] then do
          let (a, pos2) ← prev.expression p (pos + 1)
          let (as_, pos2) ← prev.argRest p pos2
          .ok (a :: as_, pos2)
        else .ok ([], pos) }

/-- `Parser.parse_expression` (noeta_parser.py line 2040). -/
def parse_expression (fuel : Nat) (p : PState) (pos : Nat) : Except PyErr (Expr × Nat) :=
  (exprParsersFuel fuel).expression p pos

/-- `Parser.parse_multiplicative` (see the comment in the pack body). -/
def parse_multiplicative (fuel : Nat) (p : PState) (pos : Nat) :
    Except PyErr (Expr × Nat) :=
  (exprParsersFuel fuel).multiplicative p pos

/-- `Parser.parse_primary`. -/
def parse_primary (fuel : Nat) (p : PState) (pos : Nat) : Except PyErr (Expr × Nat) :=
  (exprParsersFuel fuel).primary p pos

/-- The expression sub-parser applied to a token list (entry point used by
the precedence property). -/
def parseExpressionTokens (tokens : List Token) (source_code : String) :
    Except PyErr (Expr × Nat) :=
  parse_expression (tokens.length + 1) { tokens := tokens, source_code := source_code } 0

/- Suggestion engine (noeta_errors.py): the classic dynamic-programming
Levenshtein distance and `suggest_similar`. -/

/-- Inner loop of `levenshtein_distance`: the elements appended to
`current_row` after its head, given the previous row (aligned so its head
is `previous_row[j]`) and the last value appended (`current_row[j]`). -/
def levRowGo (c1 : Char) : List Char → List Nat → Nat → List Nat
  | [], _, _ => []
  | c2 :: s2rest, prev, curLast =>
    match prev with
    | pj :: rest =>
      let insertions := rest.headD 0 + 1
      let deletions := curLast + 1
      let substitutions := pj + (if c1 ≠ c2 then 1 else 0)
      let v := min insertions (min deletions substitutions)
      v :: levRowGo c1 s2rest rest v
    | [] => []

/-- One full `current_row`. -/
def levRow (c1 : Char) (s2 : List Char) (prev : List Nat) (i : Nat) : List Nat :=
  (i + 1) :: levRowGo c1 s2 prev (i + 1)

/-- The row fold over the characters of `s1`. -/
def levFold : List Char → List Char → List Nat → Nat → List Nat
  | [], _, prev, _ => prev
  | c1 :: s1rest, s2, prev, i => levFold s1rest s2 (levRow c1 s2 prev i) (i + 1)

/-- The DP core, for `len s1 ≥ len s2`. -/
def levCore (l1 l2 : List Char) : Nat :=
  if l2.length = 0 then l1.length
  else (levFold l1 l2 (List.range (l2.length + 1)) 0).getLastD 0

/-- `levenshtein_distance` (the argument swap keeps the second string the
shorter one, exactly as the source's single recursive call does). -/
def levenshtein_distance (s1 s2 : String) : Nat :=
  if s1.data.length < s2.data.length then levCore s2.data s1.data
  else levCore s1.data s2.data

/-- Stable insert for the model of Python's stable `list.sort(key=...)`:
the new element goes after every element whose key is not larger. -/
def insertByDist (l : List (Nat × String)) (x : Nat × String) : List (Nat × String) :=
  match l with
  | [] => [x]
  | y :: ys => if y.1 ≤ x.1 then y :: insertByDist ys x else x :: y :: ys

def sortByDist (l : List (Nat × String)) : List (Nat × String) :=
  l.foldl insertByDist []

/-- `suggest_similar`: candidates within `max_distance` of the lowercased
attempt, nearest first (stable on ties), truncated to `max_suggestions`. -/
def suggest_similar (attempted : String) (available : List String)
    (max_suggestions max_distance : Nat) : List String :=
  if available = [] then []
  else
    let distances := available.filterMap (fun name =>
      let dist := levenshtein_distance (pyLower attempted) (pyLower name)
      if dist ≤ max_distance then some (dist, name) else none)
    ((sortByDist distances).take max_suggestions).map Prod.snd

/- Semantic analyzer (noeta_semantic.py). -/

inductive DataType where
  | STRING
  | NUMERIC
  | DATETIME
  | BOOLEAN
  | UNKNOWN
deriving DecidableEq, Repr

structure ColumnInfo where
  name : String
  dtype : DataType
  nullable : Bool
deriving DecidableEq, Repr

/-- `DatasetInfo`: columns as an insertion-ordered map (Python dict);
an empty map means the schema is unknown. -/
structure DatasetInfo where
  name : String
  columns : List (String × ColumnInfo)
  source : Option String
deriving DecidableEq, Repr

def DatasetInfo.has_column (d : DatasetInfo) (col_name : String) : Bool :=
  (d.columns.lookup col_name).isSome

/-- Python dict assignment: replace the value in place, append when the
key is new. -/
def pyDictSet {α : Type} : List (String × α) → String → α → List (String × α)
  | [], k, v => [(k, v)]
  | (k1, v1) :: rest, k, v =>
    if k1 = k then (k1, v) :: rest else (k1, v1) :: pyDictSet rest k v

structure SymbolTable where
  datasets : List (String × DatasetInfo)
  history : List String
deriving DecidableEq, Repr

def SymbolTable.new : SymbolTable := { datasets := [], history := [] }

def SymbolTable.define (t : SymbolTable) (name : String) (info : DatasetInfo) : SymbolTable :=
  { datasets := pyDictSet t.datasets name info, history := t.history ++ [name] }

def SymbolTable.lookup (t : SymbolTable) (name : String) : Option DatasetInfo :=
  t.datasets.lookup name

def SymbolTable.get_all_names (t : SymbolTable) : List String :=
  t.datasets.map Prod.fst

/-- Analyzer configuration: the source text (for error contexts), the
type-check switch, and the file-schema probe collaborator consulted only
when type checking is enabled (spec section 6); every verified property
runs with type checking disabled, where the probe is never consulted. -/
structure AnalyzerConfig where
  source_code : String
  enable_type_check : Bool
  probe : String → Option String → List (String × ColumnInfo)

/-- `SemanticAnalyzer._introspect_file_schema`: disabled mode returns the
empty schema without touching the file system. -/
def introspect_file_schema (cfg : AnalyzerConfig) (filepath : String)
    (format : Option String) : List (String × ColumnInfo) :=
  if cfg.enable_type_check then cfg.probe filepath format else []

def analyzer_get_source_line (cfg : AnalyzerConfig) (line_num : Nat) : String :=
  let lines := if cfg.source_code = "" then [] else splitLines cfg.source_code.data
  if lines = [] ∨ line_num < 1 ∨ lines.length < line_num then ""
  else lines.getD (line_num - 1) ""

/-- `create_semantic_error` of noeta_errors.py: context only when the line
is positive. -/
def create_semantic_error (message : String) (line column : Nat) (source_line : String)
    (length : Nat) (hint : Option String) (suggestion : Option String) : NoetaError :=
  { message := message
    category := .SEMANTIC
    context := if 0 < line then some (mkErrorContext line column length source_line) else none
    hint := hint
    suggestion := suggestion }

/-- `SemanticAnalyzer._suggest_dataset`. -/
def suggest_dataset (t : SymbolTable) (attempted : String) : Option String :=
  let available := t.get_all_names
  if available = [] then none
  else
    match suggest_similar attempted available 1 3 with
    | s :: _ => some ("Did you mean \x27" ++ s ++ "\x27?")
    | [] => none

/-- `SemanticAnalyzer._check_dataset_exists`. -/
def check_dataset_exists (cfg : AnalyzerConfig) (t : SymbolTable) (name : String)
    (node_line node_column : Nat) : Except NoetaError DatasetInfo :=
  match t.lookup name with
  | some info => .ok info
  | none =>
    let available := t.get_all_names
    let hint :=
      if available ≠ [] then "Available datasets: " ++ String.intercalate ", " available
      else "No datasets have been loaded yet"
    .error (create_semantic_error
      ("Dataset \x27" ++ name ++ "\x27 has not been loaded or created")
      node_line node_column (analyzer_get_source_line cfg node_line) name.length
      (some hint) (suggest_dataset t name))

/-- `SemanticAnalyzer._check_column_exists` (no check when the schema is
unknown). -/
def check_column_exists (cfg : AnalyzerConfig) (info : DatasetInfo) (column : String)
    (node_line node_column : Nat) : Except NoetaError Unit :=
  if info.columns = [] then .ok ()
  else if info.has_column column then .ok ()
  else
    let available := info.columns.map Prod.fst
    .error (create_semantic_error
      ("Column \x27" ++ column ++ "\x27 does not exist in dataset \x27" ++ info.name ++ "\x27")
      node_line node_column (analyzer_get_source_line cfg node_line) column.length
      (some ("Available columns in \x27" ++ info.name ++ "\x27: " ++
        String.intercalate ", " available))
      none)

/-- The column loop of `visit_SelectNode`, stopping at the first failure
as the raised exception does. -/
def check_columns (cfg : AnalyzerConfig) (info : DatasetInfo) (cols : List String)
    (node_line node_column : Nat) : Except NoetaError Unit :=
  match cols with
  | [] => .ok ()
  | col :: rest => do
    let _ ← check_column_exists cfg info col node_line node_column
    check_columns cfg info rest node_line node_column

/-- `visit_LoadNode`: registers the alias with the (possibly introspected)
schema; never fails. -/
def visit_load (cfg : AnalyzerConfig) (t : SymbolTable) (node : LoadNode) :
    Except NoetaError SymbolTable :=
  let columns := introspect_file_schema cfg node.filepath node.format
  .ok (t.define node.aliasName
    { name := node.aliasName, columns := columns, source := some node.filepath })

/-- `visit_SelectNode`: source must exist; with a known schema every
selected column must exist; the result alias gets the projected schema. -/
def visit_select (cfg : AnalyzerConfig) (t : SymbolTable) (node : SelectNode) :
    Except NoetaError SymbolTable := do
  let source_info ← check_dataset_exists cfg t node.source_alias node.line node.column
  let _ ←
    if source_info.columns ≠ [] then
      check_columns cfg source_info node.columns node.line node.column
    else .ok ()
  let result_columns :=
    if source_info.columns ≠ [] then
      node.columns.foldl (fun acc col =>
        match source_info.columns.lookup col with
        | some ci => pyDictSet acc col ci
        | none => acc) []
    else []
  match node.new_alias with
  | some a =>
    .ok (t.define a
      { name := a, columns := result_columns
        source := some ("select from " ++ node.source_alias) })
  | none => .ok t

/-- `visit_UpdatedFilterNode`: only the source alias is validated; columns
inside the condition tree are not; the result alias copies the schema. -/
def visit_updated_filter (cfg : AnalyzerConfig) (t : SymbolTable)
    (node : UpdatedFilterNode) : Except NoetaError SymbolTable := do
  let source_info ← check_dataset_exists cfg t node.source_alias node.line node.column
  match node.new_alias with
  | some a =>
    .ok (t.define a
      { name := a, columns := source_info.columns
        source := some ("filter from " ++ node.source_alias) })
  | none => .ok t

/-- `visit_DescribeNode`: source existence only (the optional column list
of the node is not validated). -/
def visit_describe (cfg : AnalyzerConfig) (t : SymbolTable) (node : DescribeNode) :
    Except NoetaError SymbolTable := do
  let _ ← check_dataset_exists cfg t node.source_alias node.line node.column
  .ok t

/-- Dispatch of `SemanticAnalyzer.visit`.  `OutliersNode` has no
`visit_OutliersNode` method, so it falls to `generic_visit`, which does
nothing: no alias check, no registration. -/
def visit (cfg : AnalyzerConfig) (t : SymbolTable) : Stmt → Except NoetaError SymbolTable
  | .load node => visit_load cfg t node
  | .select node => visit_select cfg t node
  | .filter node => visit_updated_filter cfg t node
  | .describe node => visit_describe cfg t node
  | .outliers _ => .ok t

/-- The statement loop of `SemanticAnalyzer.analyze`: a failing statement
contributes its diagnostic and leaves the table untouched; analysis
continues with the remaining statements. -/
def analyzeStatements (cfg : AnalyzerConfig) :
    List Stmt → SymbolTable → List NoetaError × SymbolTable
  | [], t => ([], t)
  | s :: rest, t =>
    match visit cfg t s with
    | .ok t' => analyzeStatements cfg rest t'
    | .error e =>
      let (errs, t') := analyzeStatements cfg rest t
      (e :: errs, t')

/-- `SemanticAnalyzer.analyze`. -/
def analyze (cfg : AnalyzerConfig) (ast : ProgramNode) (t : SymbolTable) :
    List NoetaError × SymbolTable :=
  analyzeStatements cfg ast.statements t

/-- The analyzer configuration used throughout the verified properties:
type checking disabled, probe never consulted. -/
def cfgNoTC (source_code : String) : AnalyzerConfig :=
  { source_code := source_code, enable_type_check := false, probe := fun _ _ => [] }

/- Code generator (noeta_codegen.py), for the modelled statement kinds. -/

mutual

/-- Python `repr` of a parse value (string escaping inside repr is not
further modelled; the identifiers and literals of the language contain no
quotes). -/
def pyReprVal : Val → String
  | .vstr s => "\x27" ++ s ++ "\x27"
  | .vnum (.int n) => toString n
  | .vnum (.float t) => t
  | .vbool b => if b then "True" else "False"
  | .vnone => "None"
  | .vlist items => "[" ++ String.intercalate ", " (pyReprValList items) ++ "]"
  | .vdict items => "\x7b" ++ String.intercalate ", " (pyReprValDict items) ++ "\x7d"

def pyReprValList : List Val → List String
  | [] => []
  | v :: vs => pyReprVal v :: pyReprValList vs

def pyReprValDict : List (String × Val) → List String
  | [] => []
  | (k, v) :: rest => ("\x27" ++ k ++ "\x27: " ++ pyReprVal v) :: pyReprValDict rest

end

/-- Python `str` of a parse value (differs from `repr` only on strings). -/
def pyStrVal : Val → String
  | .vstr s => s
  | v => pyReprVal v

/-- Python `==` of a parse value against a string literal. -/
def Val.isStrEq : Val → String → Bool
  | .vstr s, t => s = t
  | _, _ => false

mutual

/-- `CodeGenerator._format_value` (branch order as in the source: None,
bool, str with quote escaping, numbers, list, dict). -/
def format_value : Val → String
  | .vnone => "None"
  | .vbool b => if b then "True" else "False"
  | .vstr s => "\x27" ++ pyReplace s "\x27" "\\\x27" ++ "\x27"
  | .vnum (.int n) => toString n
  | .vnum (.float t) => t
  | .vlist items => "[" ++ String.intercalate ", " (format_value_items items) ++ "]"
  | .vdict items => "\x7b" ++ String.intercalate ", " (format_value_pairs items) ++ "\x7d"

def format_value_items : List Val → List String
  | [] => []
  | v :: vs => format_value v :: format_value_items vs

def format_value_pairs : List (String × Val) → List String
  | [] => []
  | (k, v) :: rest =>
    -- `_format_value(k)` with `k` a `str`: the source string branch, inlined.
    (("\x27" ++ pyReplace k "\x27" "\\\x27" ++ "\x27") ++ ": " ++ format_value v) ::
      format_value_pairs rest

end

/-- `CodeGenerator._build_params_str`. -/
def build_params_str (params : List (String × Val)) : String :=
  if params.isEmpty then ""
  else String.intercalate ", " (params.map (fun kv => kv.1 ++ "=" ++ format_value kv.2))

/-- `CodeGenerator._format_value_for_pandas`. -/
def format_value_for_pandas : Val → String
  | .vstr s => "\x27" ++ s ++ "\x27"
  | .vbool b => if b then "True" else "False"
  | .vnum (.int n) => toString n
  | .vnum (.float t) => t
  | .vnone => "None"
  | v => pyReprVal v

/-- `CodeGenerator._generate_condition_code`.  A `StringMatchNode` whose
match type is none of the four known ones makes the Python function fall
off the end and return `None`, which the caller interpolates as the text
`None`; the parser never produces such a node. -/
def generate_condition_code (source_alias : String) : Cond → String
  | .binary left op right =>
    "(" ++ generate_condition_code source_alias left ++ ") " ++
      (if op = "and" then "&" else "|") ++
      " (" ++ generate_condition_code source_alias right ++ ")"
  | .notCond c => "~(" ++ generate_condition_code source_alias c ++ ")"
  | .comparison left op right =>
    source_alias ++ "[\x27" ++ left ++ "\x27] " ++ op ++ " " ++ format_value_for_pandas right
  | .between column min_value max_value =>
    source_alias ++ "[\x27" ++ column ++ "\x27].between(" ++
      format_value_for_pandas min_value ++ ", " ++ format_value_for_pandas max_value ++ ")"
  | .inCond column values =>
    source_alias ++ "[\x27" ++ column ++ "\x27].isin([" ++
      String.intercalate ", " (values.map format_value_for_pandas) ++ "])"
  | .stringMatch column match_type pattern =>
    let col := source_alias ++ "[\x27" ++ column ++ "\x27]"
    let pat := format_value_for_pandas (.vstr pattern)
    if match_type = "contains" then col ++ ".str.contains(" ++ pat ++ ", na=False)"
    else if match_type = "starts_with" then col ++ ".str.startswith(" ++ pat ++ ", na=False)"
    else if match_type = "ends_with" then col ++ ".str.endswith(" ++ pat ++ ", na=False)"
    else if match_type = "matches" then col ++ ".str.match(" ++ pat ++ ", na=False)"
    else "None"
  | .nullCheck column is_not_null =>
    source_alias ++ "[\x27" ++ column ++ "\x27]" ++
      (if is_not_null then ".notnull()" else ".isnull()")

/-- Python `str` of a list of strings (used where the code interpolates
`node.columns` directly into an f-string). -/
def pyStrStrList (cols : List String) : String :=
  "[" ++ String.intercalate ", " (cols.map (fun c => "\x27" ++ c ++ "\x27")) ++ "]"

/-- Code-generator state: bound aliases, the import set, emitted lines,
and the last plot marker (never set by the modelled statement kinds). -/
structure GenState where
  symbol_table : List String
  imports : List String
  code_lines : List String
  last_plot : Option String

/-- Set insertion for the import set. -/
def setAdd (l : List String) (s : String) : List String :=
  if l.contains s then l else l ++ [s]

def insertStr (s : String) : List String → List String
  | [] => [s]
  | x :: xs => if s ≤ x then s :: x :: xs else x :: insertStr s xs

/-- Python `sorted` on distinct strings. -/
def sortStrings : List String → List String
  | [] => []
  | x :: xs => insertStr x (sortStrings xs)

/-- `visit_LoadNode` of the code generator. -/
def gen_load (g : GenState) (node : LoadNode) : GenState :=
  let params := node.params.getD []
  let params_str := if ¬ params.isEmpty then build_params_str params else ""
  let simple : String → GenState × String := fun reader =>
    (g, if params_str ≠ "" then
          node.aliasName ++ " = pd." ++ reader ++ "(\x27" ++ node.filepath ++ "\x27, " ++
            params_str ++ ")"
        else
          node.aliasName ++ " = pd." ++ reader ++ "(\x27" ++ node.filepath ++ "\x27)")
  let (g, code) :=
    if node.format = some "csv" then simple "read_csv"
    else if node.format = some "json" then simple "read_json"
    else if node.format = some "excel" then simple "read_excel"
    else if node.format = some "parquet" then simple "read_parquet"
    else if node.format = some "sql" then
      let g := { g with imports := setAdd g.imports "from sqlalchemy import create_engine" }
      let connection := pyStrVal ((params.lookup "connection").getD (.vstr node.filepath))
      let g := { g with code_lines :=
        g.code_lines ++ ["_engine = create_engine(\x27" ++ connection ++ "\x27)"] }
      let sql_params := params.filter (fun kv => kv.1 ≠ "connection" ∧ kv.1 ≠ "params")
      let sql_params_str := if ¬ sql_params.isEmpty then build_params_str sql_params else ""
      let code :=
        match params.lookup "params" with
        | some query_params =>
          let params_dict_str := format_value query_params
          if sql_params_str ≠ "" then
            node.aliasName ++ " = pd.read_sql(\x27\x27\x27" ++ node.filepath ++
              "\x27\x27\x27, con=_engine, params=" ++ params_dict_str ++ ", " ++
              sql_params_str ++ ")"
          else
            node.aliasName ++ " = pd.read_sql(\x27\x27\x27" ++ node.filepath ++
              "\x27\x27\x27, con=_engine, params=" ++ params_dict_str ++ ")"
        | none =>
          if sql_params_str ≠ "" then
            node.aliasName ++ " = pd.read_sql(\x27\x27\x27" ++ node.filepath ++
              "\x27\x27\x27, con=_engine, " ++ sql_params_str ++ ")"
          else
            node.aliasName ++ " = pd.read_sql(\x27\x27\x27" ++ node.filepath ++
              "\x27\x27\x27, con=_engine)"
      (g, code)
    else simple "read_csv"
  { g with code_lines := g.code_lines ++
      [code,
       "print(f\x27Loaded " ++ node.filepath ++ " as " ++ node.aliasName ++
         ": \x7blen(" ++ node.aliasName ++ ")\x7d rows, \x7blen(" ++ node.aliasName ++
         ".columns)\x7d columns\x27)"] }

/-- `visit_SelectNode` of the code generator. -/
def gen_select (g : GenState) (node : SelectNode) : GenState :=
  let columns_str := pyReplace (pyStrStrList node.columns) "\x27" "\""
  match node.new_alias with
  | some a =>
    { g with
      code_lines := g.code_lines ++
        [a ++ " = " ++ node.source_alias ++ "[" ++ columns_str ++ "].copy()",
         "print(f\x27Selected \x7blen(" ++ a ++ ".columns)\x7d columns from " ++
           node.source_alias ++ "\x27)"]
      symbol_table := setAdd g.symbol_table a }
  | none =>
    { g with code_lines := g.code_lines ++
        ["print(f\x27\\nSelected Columns:\x27)",
         "print(" ++ node.source_alias ++ "[" ++ columns_str ++ "])"] }

/-- `visit_UpdatedFilterNode` of the code generator. -/
def gen_filter (g : GenState) (node : UpdatedFilterNode) : GenState :=
  let filter_expr := generate_condition_code node.source_alias node.condition
  match node.new_alias with
  | some a =>
    { g with
      code_lines := g.code_lines ++
        [a ++ " = " ++ node.source_alias ++ "[" ++ filter_expr ++ "].copy()",
         "print(f\x27Filtered " ++ node.source_alias ++ ": \x7blen(" ++ a ++
           ")\x7d rows match condition\x27)"]
      symbol_table := setAdd g.symbol_table a }
  | none =>
    { g with code_lines := g.code_lines ++
        ["print(f\x27\\nFiltered Result:\x27)",
         "print(" ++ node.source_alias ++ "[" ++ filter_expr ++ "])"] }

/-- `visit_DescribeNode` of the code generator (one entry holding two
lines). -/
def gen_describe (g : GenState) (node : DescribeNode) : GenState :=
  let code :=
    match node.columns with
    | some cols =>
      "print(\"\\nDescriptive Statistics for " ++ pyStrStrList cols ++ ":\")\n" ++
        "print(" ++ node.source_alias ++ "[" ++ pyStrStrList cols ++ "].describe())"
    | none =>
      "print(\x27\\nDescriptive Statistics for " ++ node.source_alias ++ ":\x27)\n" ++
        "print(" ++ node.source_alias ++ ".describe())"
  { g with code_lines := g.code_lines ++ [code] }

/-- `visit_OutliersNode` of the code generator. -/
def gen_outliers (g : GenState) (node : OutliersNode) : GenState :=
  let head := "# Detect outliers using " ++ pyStrVal node.method ++ " method\n"
  let code :=
    if node.method.isStrEq "iqr" then
      head ++
      "for col in " ++ pyStrStrList node.columns ++ ":\n" ++
      "    Q1 = " ++ node.source_alias ++ "[col].quantile(0.25)\n" ++
      "    Q3 = " ++ node.source_alias ++ "[col].quantile(0.75)\n" ++
      "    IQR = Q3 - Q1\n" ++
      "    lower_bound = Q1 - 1.5 * IQR\n" ++
      "    upper_bound = Q3 + 1.5 * IQR\n" ++
      "    outliers = " ++ node.source_alias ++ "[((" ++ node.source_alias ++
        "[col] < lower_bound) | (" ++ node.source_alias ++ "[col] > upper_bound))]\n" ++
      "    print(f\x27Outliers in \x7bcol\x7d: \x7blen(outliers)\x7d rows\x27)\n"
    else if node.method.isStrEq "zscore" then
      head ++
      "from scipy import stats\n" ++
      "for col in " ++ pyStrStrList node.columns ++ ":\n" ++
      "    z_scores = np.abs(stats.zscore(" ++ node.source_alias ++ "[col].dropna()))\n" ++
      "    outliers = np.sum(z_scores > 3)\n" ++
      "    print(f\x27Outliers in \x7bcol\x7d (|z| > 3): \x7boutliers\x7d values\x27)\n"
    else head
  { g with code_lines := g.code_lines ++ [code] }

def gen_visit (g : GenState) : Stmt → GenState
  | .load node => gen_load g node
  | .select node => gen_select g node
  | .filter node => gen_filter g node
  | .describe node => gen_describe g node
  | .outliers node => gen_outliers g node

/-- `CodeGenerator.generate`: standard imports, per-statement templates,
sorted import block, the fixed visualization preamble, and the trailing
plot-display block only when a visualization statement ran (none of the
modelled kinds sets `last_plot`). -/
def generate (ast : ProgramNode) : String :=
  let g : GenState :=
    { symbol_table := [], imports := [], code_lines := [], last_plot := none }
  let stdImports :=
    setAdd (setAdd (setAdd (setAdd (setAdd g.imports
      "import pandas as pd") "import numpy as np") "import matplotlib.pyplot as plt")
      "import seaborn as sns") "from scipy import stats"
  let g := { g with imports := stdImports }
  let g := ast.statements.foldl gen_visit g
  let result := String.intercalate "\n" (sortStrings g.imports)
  let result := result ++ "\n\n# Configure visualization settings\n" ++
    "plt.style.use(\x27seaborn-v0_8-darkgrid\x27)\n" ++
    "sns.set_palette(\x27husl\x27)\n\n"
  let result := result ++ String.intercalate "\n" g.code_lines
  match g.last_plot with
  | some _ =>
    result ++ "\n\n# Display plots\n" ++ "plt.tight_layout()\n" ++ "try:\n" ++
      "    get_ipython()\n" ++
      "    # Running in Jupyter/IPython - don\x27t show (kernel will display inline)\n" ++
      "except NameError:\n" ++
      "    # Running in VS Code/CLI - show plots in separate windows\n" ++
      "    plt.show()"
  | none => result

/- Error formatting (ErrorFormatter / MultiErrorFormatter of
noeta_errors.py).  Whether stderr is a TTY is an environment fact; it is
passed in as `supportsColor` and every property quantifies over it. -/

def colorRED : String := "\x1b[91m"
def colorYELLOW : String := "\x1b[93m"
def colorCYAN : String := "\x1b[96m"
def colorGREEN : String := "\x1b[92m"
def colorBOLD : String := "\x1b[1m"
def colorRESET : String := "\x1b[0m"

def colorize (supportsColor : Bool) (text color : String) : String :=
  if supportsColor then color ++ text ++ colorRESET else text

/-- Python `f"{n:4d}"`. -/
def padLeft4 (n : Nat) : String :=
  let s := toString n
  if s.length < 4 then String.mk (List.replicate (4 - s.length) ' ') ++ s else s

/-- `ErrorFormatter._format_source_context`. -/
def format_source_context (supportsColor : Bool) (context : ErrorContext) : String :=
  let line_num_str := padLeft4 context.line
  let source_line := "    " ++ line_num_str ++ " | " ++ context.sourceLine
  let spaces := 4 + line_num_str.length + 3 + context.column - 1
  let arrow := String.mk (List.replicate spaces ' ') ++
    colorize supportsColor (String.mk (List.replicate context.length '^')) colorCYAN
  source_line ++ "\n" ++ arrow

/-- `ErrorFormatter.format`. -/
def formatError (supportsColor : Bool) (error : NoetaError) : String :=
  let header :=
    match error.context with
    | some ctx =>
      error.category.value ++ " at line " ++ toString ctx.line ++ ", column " ++
        toString ctx.column ++ ":"
    | none => error.category.value ++ ":"
  let lines := [colorize supportsColor header (colorRED ++ colorBOLD)]
  let lines := lines ++
    (match error.context with
     | some ctx =>
       if ctx.sourceLine ≠ "" then [format_source_context supportsColor ctx] else []
     | none => [])
  let lines := lines ++ ["    " ++ colorize supportsColor error.message colorRED]
  let lines := lines ++
    (match error.hint with
     | some h => ["", colorize supportsColor ("Hint: " ++ h) colorYELLOW]
     | none => [])
  let lines := lines ++
    (match error.suggestion with
     | some s => [colorize supportsColor ("Did you mean: " ++ s) colorGREEN]
     | none => [])
  String.intercalate "\n" lines

/-- One error's block inside the multi-error report. -/
def formatOneInMulti (supportsColor : Bool) (acc : List String × Nat) (error : NoetaError) :
    List String × Nat :=
  let (lines, error_num) := acc
  let lines := lines ++ ["\n[Error " ++ toString error_num ++ "]"]
  let lines := lines ++
    (match error.context with
     | some ctx =>
       let location := "  Line " ++ toString ctx.line ++ ", column " ++
         toString ctx.column ++ ":"
       [if supportsColor then colorRED ++ location ++ colorRESET else location] ++
         (if ctx.sourceLine ≠ "" then [format_source_context supportsColor ctx] else [])
     | none => [])
  let message := "    " ++ error.message
  let lines := lines ++ [if supportsColor then colorRED ++ message ++ colorRESET else message]
  let lines := lines ++
    (match error.hint with
     | some h =>
       let hint := "  Hint: " ++ h
       [if supportsColor then colorYELLOW ++ hint ++ colorRESET else hint]
     | none => [])
  let lines := lines ++
    (match error.suggestion with
     | some s =>
       let suggestion := "  Did you mean: " ++ s
       [if supportsColor then colorGREEN ++ suggestion ++ colorRESET else suggestion]
     | none => [])
  (lines, error_num + 1)

/-- One category section (skipped when the category holds no errors). -/
def formatCategoryInMulti (supportsColor : Bool) (errors : List NoetaError)
    (acc : List String × Nat) (category : ErrorCategory) : List String × Nat :=
  let category_errors := errors.filter (fun e => e.category = category)
  if category_errors = [] then acc
  else
    let (lines, error_num) := acc
    let category_header := "\n" ++ category.value ++ "s (" ++
      toString category_errors.length ++ "):"
    let lines := lines ++
      [if supportsColor then colorBOLD ++ category_header ++ colorRESET else category_header]
    let lines := lines ++ [String.mk (List.replicate 60 '-')]
    category_errors.foldl (formatOneInMulti supportsColor) (lines, error_num)

/-- `MultiErrorFormatter.format_multiple`: one error renders as the single
form; two or more render grouped by category in the fixed order
lexical/syntax/semantic/type/runtime, sequentially numbered, with a
trailing count. -/
def format_multiple (supportsColor : Bool) (errors : List NoetaError) : String :=
  match errors with
  | [] => "No errors to display"
  | [e] => formatError supportsColor e
  | _ =>
    let header := "Found " ++ toString errors.length ++ " errors in compilation:"
    let lines := [if supportsColor then colorRED ++ colorBOLD ++ header ++ colorRESET
                  else header, ""]
    let (lines, _) :=
      ([.LEXER, .SYNTAX, .SEMANTIC, .TYPE, .RUNTIME] : List ErrorCategory).foldl
        (formatCategoryInMulti supportsColor errors) (lines, 1)
    let footer := "Total: " ++ toString errors.length ++ " error" ++
      (if errors.length ≠ 1 then "s" else "") ++ " found"
    let lines := lines ++ ["", String.mk (List.replicate 60 '='),
      if supportsColor then colorRED ++ colorBOLD ++ footer ++ colorRESET else footer]
    String.intercalate "\n" lines

/-- `create_multi_error`: one error passes through unchanged; several are
wrapped into a single error whose message is the full formatted report and
whose category is the first error's. -/
def create_multi_error (supportsColor : Bool) (errors : List NoetaError) : NoetaError :=
  match errors with
  | [] =>
    { message := "No errors to display", category := .RUNTIME
      context := none, hint := none, suggestion := none }
  | [e] => e
  | e :: _ =>
    { message := format_multiple supportsColor errors
      category := e.category
      context := none, hint := none, suggestion := none }

/- Runner (compile_noeta of noeta_runner.py). -/

/-- What `compile_noeta` can leave the caller with, besides generated
text: a `NoetaError` re-raised as-is, the RuntimeError wrapper around any
other exception, or a model gap of this embedding (a source path the
embedding does not cover — not a behaviour of the program). -/
inductive CompileErr where
  | noetaDiag (e : NoetaError)
  | runtimeError (msg : String)
  | modelGap (what : String)
deriving DecidableEq, Repr

/-- The `except NoetaError: raise` / `except Exception as e:
raise RuntimeError(...)` pair at the bottom of `compile_noeta`. -/
def wrapPyErr : PyErr → CompileErr
  | .noeta e => .noetaDiag e
  | .modelGap w => .modelGap w
  | e => .runtimeError ("Unexpected compilation error: " ++ e.pyStr ++
      "\nPlease report this as a bug")

/-- `compile_noeta(source_code, enable_type_check, symbol_table)`:
tokenize, parse, analyze; raise the single diagnostic or the aggregate
when the analyzer collected any; otherwise generate.  `none` for the
symbol table means the analyzer creates a fresh one (the Python default).
The possibly mutated table is returned alongside the outcome. -/
def compile_noeta (supportsColor enable_type_check : Bool)
    (probe : String → Option String → List (String × ColumnInfo))
    (source_code : String) (symbol_table : Option SymbolTable) :
    Except CompileErr String × SymbolTable :=
  let t0 := symbol_table.getD SymbolTable.new
  match tokenize source_code with
  | .error e => (.error (wrapPyErr e), t0)
  | .ok tokens =>
    match parseProgram tokens source_code with
    | .error e => (.error (wrapPyErr e), t0)
    | .ok ast =>
      let cfg : AnalyzerConfig :=
        { source_code := source_code, enable_type_check := enable_type_check
          probe := probe }
      let (errors, t1) := analyze cfg ast t0
      match errors with
      | [] => (.ok (generate ast), t1)
      | [e] => (.error (.noetaDiag e), t1)
      | _ => (.error (.noetaDiag (create_multi_error supportsColor errors)), t1)

/-- `compile_noeta(source)` with the Python defaults: type checking off
(probe never consulted) and a fresh symbol table. -/
def compileDefault (supportsColor : Bool) (source_code : String) :
    Except CompileErr String :=
  (compile_noeta supportsColor false (fun _ _ => []) source_code none).1

/- Specification-side predicates, written from the words of the claims
(and of spec sections 3 and 4.4), for comparison with the embedded
analyzer. -/

/-- The source dataset aliases a statement references. -/
def Stmt.sources : Stmt → List String
  | .load _ => []
  | .select n => [n.source_alias]
  | .filter n => [n.source_alias]
  | .describe n => [n.source_alias]
  | .outliers n => [n.source_alias]

/-- The result alias a statement declares, if any. -/
def Stmt.declares : Stmt → Option String
  | .load n => some n.aliasName
  | .select n => n.new_alias
  | .filter n => n.new_alias
  | .describe _ => none
  | .outliers _ => none

/-- Statement kinds the analyzer validates: each has a `visit_<Kind>`
method.  `OutliersNode` has none and falls to `generic_visit`. -/
def Stmt.checkedKind : Stmt → Bool
  | .outliers _ => false
  | _ => true

/-- Column names appearing in a condition tree. -/
def Cond.columnsReferenced : Cond → List String
  | .binary l _ r => l.columnsReferenced ++ r.columnsReferenced
  | .notCond c => c.columnsReferenced
  | .comparison left _ _ => [left]
  | .between column _ _ => [column]
  | .inCond column _ => [column]
  | .stringMatch column _ _ => [column]
  | .nullCheck column _ => [column]

/-- Every column a statement references, in the claim's sense. -/
def Stmt.columnsReferenced : Stmt → List String
  | .load _ => []
  | .select n => n.columns
  | .filter n => n.condition.columnsReferenced
  | .describe n => n.columns.getD []
  | .outliers n => n.columns

/-- Claim-side environment: alias to known column names (empty list =
unknown schema), updated with Python-dict semantics. -/
def SpecEnv : Type := List (String × List String)

/-- Claim-side registration, following spec section 4.4(c): a load binds
its alias with the probed schema (unknown when type checking is off), a
select projects the source schema to its column list, a filter copies it;
display statements bind nothing. -/
def specDeclaredSchema (env : List (String × List String)) :
    Stmt → Option (String × List String)
  | .load n => some (n.aliasName, [])
  | .select n =>
    match n.new_alias with
    | some a =>
      some (a, ((env.lookup n.source_alias).getD []).filter (fun c => n.columns.contains c))
    | none => none
  | .filter n =>
    match n.new_alias with
    | some a => some (a, (env.lookup n.source_alias).getD [])
    | none => none
  | .describe _ => none
  | .outliers _ => none

/-- The literal reading of claim C1's right-hand side: every statement's
source aliases are defined by an earlier statement (or pre-supplied in
the starting environment), and whenever a source dataset's schema is
known, every column the statement references exists in it. -/
def claimCleanFrom (env : List (String × List String)) : List Stmt → Bool
  | [] => true
  | s :: rest =>
    let sourcesOK := s.sources.all (fun a => (env.lookup a).isSome)
    let columnsOK := s.sources.all (fun a =>
      match env.lookup a with
      | some (c :: cs) => s.columnsReferenced.all (fun col => (c :: cs).contains col)
      | _ => true)
    let env' :=
      match specDeclaredSchema env s with
      | some (a, cols) => pyDictSet env a cols
      | none => env
    sourcesOK && columnsOK && claimCleanFrom env' rest

/-- The amended reading: only statements of a kind the analyzer validates
need their source aliases defined by an earlier statement (or
pre-supplied); with a fresh symbol table and type checking disabled no
schema is ever known, so no column-existence requirement remains. -/
def amendedCleanFrom (defined : List String) : List Stmt → Bool
  | [] => true
  | s :: rest =>
    (if s.checkedKind then s.sources.all (fun a => defined.contains a) else true) &&
      amendedCleanFrom
        (match s.declares with
         | some a => defined ++ [a]
         | none => defined) rest

/-- All schemas registered in a table are unknown — the invariant that a
fresh table satisfies and analysis with type checking disabled keeps. -/
def allSchemasUnknown (t : SymbolTable) : Prop :=
  ∀ pr ∈ t.datasets, (pr : String × DatasetInfo).2.columns = []

/-- The semantic diagnostics of the default pipeline (lex and parse with
defaults, analyze with type checking off and a fresh table), when lexing
and parsing succeed — the stage whose output `compile_noeta` raises. -/
def semErrors (source_code : String) : Option (List NoetaError) :=
  match tokenize source_code with
  | .error _ => none
  | .ok tokens =>
    match parseProgram tokens source_code with
    | .error _ => none
    | .ok ast => some (analyze (cfgNoTC source_code) ast SymbolTable.new).1

/-- Whether a compile outcome is a gap of this embedding (used to scope
universally quantified pipeline properties to the modelled fragment). -/
def isModelGapResult : Except CompileErr String → Bool
  | .error (.modelGap _) => true
  | _ => false

/-- Lex-then-parse, as `compile_noeta` chains them. -/
def parsePipeline (source_code : String) : Except PyErr ProgramNode := do
  let tokens ← tokenize source_code
  parseProgram tokens source_code

/- Concrete programs used by the counterexamples and code-bug theorems. -/

/-- `outliers foo with method="iqr" columns {price}` as the parser builds
it: a statement kind with no semantic visitor, referencing alias foo. -/
def outliersFooStmt : Stmt :=
  .outliers
    { source_alias := "foo", method := .vstr "iqr", columns := ["price"]
      line := 0, column := 0 }

def outliersFooSrc : String := "outliers foo with method=\"iqr\" columns \x7bprice\x7d"

/-- The same statement kind referencing alias zzz. -/
def outliersZzzStmt : Stmt :=
  .outliers
    { source_alias := "zzz", method := .vstr "iqr", columns := ["price"]
      line := 0, column := 0 }

def outliersZzzSrc : String := "outliers zzz with method=\"iqr\" columns \x7bprice\x7d"

/-- `load "x.csv" as sales` as the parser builds it. -/
def loadSalesStmt : Stmt :=
  .load
    { filepath := "x.csv", aliasName := "sales", format := none, params := none
      line := 0, column := 0 }

/-- `select sale with price as r` as the parser builds it (scenario 3 of
the spec: a typo for sales). -/
def selectSaleStmt : Stmt :=
  .select
    { source_alias := "sale", columns := ["price"], new_alias := some "r"
      line := 0, column := 0 }


/- Concrete programs and helpers for claims C3-C10. -/

/-- The expression sub-parser applied to a source text: lex, then
`parse_expression` from position 0 (as the precedence examples of the
spec would drive it). -/
def exprPipeline (src : String) : Except PyErr (Expr × Nat) := do
  let tokens ← tokenize src
  parseExpressionTokens tokens src

/-- The precedence example of the spec. -/
def exprPrecSrc : String := "1 + 2 * 3 ** 2"

/-- The line field of a parsed statement node (inherited from ASTNode). -/
def Stmt.lineOf : Stmt → Nat
  | .load n => n.line
  | .select n => n.line
  | .filter n => n.line
  | .describe n => n.line
  | .outliers n => n.line

/-- The column field of a parsed statement node. -/
def Stmt.columnOf : Stmt → Nat
  | .load n => n.column
  | .select n => n.column
  | .filter n => n.column
  | .describe n => n.column
  | .outliers n => n.column

/-- The single-line statement whose parse is `loadSalesStmt`. -/
def loadXSrc : String := "load \"x.csv\" as sales"

/-- A source text with an unterminated string literal (the input of the
test suite's lexer-error tests). -/
def untermSrc : String := "load \"unterminated"

/-- `filter d where price between 10 and 100 and category in ["A", "B"] as f`
as the parser builds it. -/
def filterDNode : UpdatedFilterNode :=
  { source_alias := "d"
    condition := .binary (.between "price" (.vnum (.int 10)) (.vnum (.int 100))) "and"
      (.inCond "category" [.vstr "A", .vstr "B"])
    new_alias := some "f", line := 0, column := 0 }

def filterDStmt : Stmt := .filter filterDNode

def filterDSrc : String :=
  "filter d where price between 10 and 100 and category in [\"A\", \"B\"] as f"

/-- A table in which d is defined with unknown schema. -/
def tableWithD : SymbolTable :=
  SymbolTable.new.define "d" { name := "d", columns := [], source := none }

/-- A program with two undefined-dataset diagnostics. -/
def twoUndefSrc : String := "describe a\ndescribe b"

def describeAStmt : Stmt :=
  .describe { source_alias := "a", columns := none, line := 0, column := 0 }

def describeBStmt : Stmt :=
  .describe { source_alias := "b", columns := none, line := 0, column := 0 }

/- Helper lemmas: the Python-dict model and symbol-table names. -/

theorem pyDictSet_cons_eq {α : Type} (k1 : String) (v1 : α) (tl : List (String × α))
    (v : α) : pyDictSet ((k1, v1) :: tl) k1 v = (k1, v) :: tl := by
  simp [pyDictSet]

theorem pyDictSet_cons_ne {α : Type} (k1 : String) (v1 : α) (tl : List (String × α))
    (k : String) (v : α) (h : k1 ≠ k) :
    pyDictSet ((k1, v1) :: tl) k v = (k1, v1) :: pyDictSet tl k v := by
  simp [pyDictSet, h]

theorem mem_pyDictSet {α : Type} (l : List (String × α)) (k : String) (v : α)
    (pr : String × α) (h : pr ∈ pyDictSet l k v) : pr.2 = v ∨ pr ∈ l := by
  induction l with
  | nil =>
    simp only [pyDictSet, List.mem_singleton] at h
    exact Or.inl (by rw [h])
  | cons hd tl ih =>
    obtain ⟨k1, v1⟩ := hd
    by_cases hk : k1 = k
    · subst hk
      rw [pyDictSet_cons_eq] at h
      rcases List.mem_cons.mp h with h1 | h1
      · exact Or.inl (by rw [h1])
      · exact Or.inr (List.mem_cons_of_mem _ h1)
    · rw [pyDictSet_cons_ne _ _ _ _ _ hk] at h
      rcases List.mem_cons.mp h with h1 | h1
      · exact Or.inr (by rw [h1]; exact List.mem_cons_self _ _)
      · rcases ih h1 with h2 | h2
        · exact Or.inl h2
        · exact Or.inr (List.mem_cons_of_mem _ h2)

theorem mem_map_fst_pyDictSet {α : Type} (l : List (String × α)) (k : String) (v : α)
    (x : String) : x ∈ (pyDictSet l k v).map Prod.fst ↔ x ∈ l.map Prod.fst ++ [k] := by
  induction l with
  | nil => simp [pyDictSet]
  | cons hd tl ih =>
    obtain ⟨k1, v1⟩ := hd
    by_cases hk : k1 = k
    · subst hk
      rw [pyDictSet_cons_eq]
      simp only [List.map_cons, List.mem_cons, List.cons_append, List.mem_append,
        List.mem_singleton]
      tauto
    · rw [pyDictSet_cons_ne _ _ _ _ _ hk]
      simp only [List.map_cons, List.mem_cons, List.cons_append, List.mem_append,
        List.mem_singleton] at *
      rw [ih]

theorem lookup_eq_some_mem {α : Type} (l : List (String × α)) (a : String) (v : α)
    (h : l.lookup a = some v) : (a, v) ∈ l := by
  induction l with
  | nil => simp [List.lookup] at h
  | cons hd tl ih =>
    obtain ⟨k1, v1⟩ := hd
    simp only [List.lookup] at h
    by_cases hk : a = k1
    · subst hk
      simp only [beq_self_eq_true] at h
      injection h with h
      simp [h]
    · have : (a == k1) = false := beq_false_of_ne hk
      rw [this] at h
      exact List.mem_cons_of_mem _ (ih h)

theorem lookup_isSome_iff_mem {α : Type} (l : List (String × α)) (a : String) :
    (l.lookup a).isSome = true ↔ a ∈ l.map Prod.fst := by
  induction l with
  | nil => simp [List.lookup]
  | cons hd tl ih =>
    obtain ⟨k1, v1⟩ := hd
    simp only [List.lookup, List.map_cons, List.mem_cons]
    by_cases hk : a = k1
    · subst hk
      simp
    · have : (a == k1) = false := beq_false_of_ne hk
      rw [this]
      simp only [ih]
      constructor
      · exact Or.inr
      · rintro (h | h)
        · exact absurd h hk
        · exact h

theorem mem_names_define (t : SymbolTable) (a : String) (info : DatasetInfo) (x : String) :
    x ∈ (t.define a info).get_all_names ↔ x ∈ t.get_all_names ++ [a] :=
  mem_map_fst_pyDictSet t.datasets a info x

theorem allSchemasUnknown_define {t : SymbolTable} (h : allSchemasUnknown t)
    {info : DatasetInfo} (hinfo : info.columns = []) (a : String) :
    allSchemasUnknown (t.define a info) := by
  intro pr hpr
  rcases mem_pyDictSet t.datasets a info pr hpr with h' | h'
  · rw [h']; exact hinfo
  · exact h pr h'

theorem allSchemasUnknown_lookup {t : SymbolTable} (h : allSchemasUnknown t)
    {a : String} {info : DatasetInfo} (hl : t.lookup a = some info) :
    info.columns = [] :=
  h (a, info) (lookup_eq_some_mem t.datasets a info hl)

theorem allSchemasUnknown_new : allSchemasUnknown SymbolTable.new := by
  intro pr hpr
  simp [SymbolTable.new] at hpr

theorem contains_iff_mem (l : List String) (a : String) : l.contains a = true ↔ a ∈ l :=
  List.elem_iff

/-- `amendedCleanFrom` only consults membership of the defined-alias list. -/
theorem amendedCleanFrom_congr (ss : List Stmt) : ∀ (d₁ d₂ : List String),
    (∀ x, x ∈ d₁ ↔ x ∈ d₂) → amendedCleanFrom d₁ ss = amendedCleanFrom d₂ ss := by
  induction ss with
  | nil => intro d₁ d₂ _; rfl
  | cons s rest ih =>
    intro d₁ d₂ h
    have hc : (fun a => d₁.contains a) = (fun a => d₂.contains a) := by
      funext a
      rw [Bool.eq_iff_iff, contains_iff_mem, contains_iff_mem]
      exact h a
    have hrec :
        amendedCleanFrom (match s.declares with
          | some a => d₁ ++ [a] | none => d₁) rest =
        amendedCleanFrom (match s.declares with
          | some a => d₂ ++ [a] | none => d₂) rest := by
      cases s.declares with
      | none => exact ih d₁ d₂ h
      | some a =>
        exact ih (d₁ ++ [a]) (d₂ ++ [a]) (by intro x; simp [List.mem_append, h x])
    simp only [amendedCleanFrom, hc, hrec]

/- Behaviour of each visitor under a fresh-style table (all schemas
unknown) with type checking disabled. -/

theorem visit_load_eq {cfg : AnalyzerConfig} (hTC : cfg.enable_type_check = false)
    (t : SymbolTable) (n : LoadNode) :
    visit cfg t (.load n) =
      .ok (t.define n.aliasName
        { name := n.aliasName, columns := [], source := some n.filepath }) := by
  simp [visit, visit_load, introspect_file_schema, hTC]

theorem visit_select_err {cfg : AnalyzerConfig} (t : SymbolTable) (n : SelectNode)
    (h : t.lookup n.source_alias = none) :
    ∃ e, visit cfg t (.select n) = .error e := by
  simp [visit, visit_select, check_dataset_exists, h, Bind.bind, Except.bind]

theorem visit_select_ok_some {cfg : AnalyzerConfig} {t : SymbolTable} {n : SelectNode}
    (hinv : allSchemasUnknown t) {info : DatasetInfo}
    (h : t.lookup n.source_alias = some info) {a : String} (ha : n.new_alias = some a) :
    visit cfg t (.select n) =
      .ok (t.define a
        { name := a, columns := [], source := some ("select from " ++ n.source_alias) }) := by
  have hcols : info.columns = [] := allSchemasUnknown_lookup hinv h
  simp [visit, visit_select, check_dataset_exists, h, hcols, ha, Bind.bind, Except.bind]

theorem visit_select_ok_none {cfg : AnalyzerConfig} {t : SymbolTable} {n : SelectNode}
    (hinv : allSchemasUnknown t) {info : DatasetInfo}
    (h : t.lookup n.source_alias = some info) (ha : n.new_alias = none) :
    visit cfg t (.select n) = .ok t := by
  have hcols : info.columns = [] := allSchemasUnknown_lookup hinv h
  simp [visit, visit_select, check_dataset_exists, h, hcols, ha, Bind.bind, Except.bind]

theorem visit_filter_err {cfg : AnalyzerConfig} (t : SymbolTable) (n : UpdatedFilterNode)
    (h : t.lookup n.source_alias = none) :
    ∃ e, visit cfg t (.filter n) = .error e := by
  simp [visit, visit_updated_filter, check_dataset_exists, h, Bind.bind, Except.bind]

theorem visit_filter_ok_some {cfg : AnalyzerConfig} {t : SymbolTable}
    {n : UpdatedFilterNode} {info : DatasetInfo}
    (h : t.lookup n.source_alias = some info) {a : String} (ha : n.new_alias = some a) :
    visit cfg t (.filter n) =
      .ok (t.define a
        { name := a, columns := info.columns
          source := some ("filter from " ++ n.source_alias) }) := by
  simp [visit, visit_updated_filter, check_dataset_exists, h, ha, Bind.bind, Except.bind]

theorem visit_filter_ok_none {cfg : AnalyzerConfig} {t : SymbolTable}
    {n : UpdatedFilterNode} {info : DatasetInfo}
    (h : t.lookup n.source_alias = some info) (ha : n.new_alias = none) :
    visit cfg t (.filter n) = .ok t := by
  simp [visit, visit_updated_filter, check_dataset_exists, h, ha, Bind.bind, Except.bind]

theorem visit_describe_err {cfg : AnalyzerConfig} (t : SymbolTable) (n : DescribeNode)
    (h : t.lookup n.source_alias = none) :
    ∃ e, visit cfg t (.describe n) = .error e := by
  simp [visit, visit_describe, check_dataset_exists, h, Bind.bind, Except.bind]

theorem visit_describe_ok {cfg : AnalyzerConfig} {t : SymbolTable} {n : DescribeNode}
    {info : DatasetInfo} (h : t.lookup n.source_alias = some info) :
    visit cfg t (.describe n) = .ok t := by
  simp [visit, visit_describe, check_dataset_exists, h, Bind.bind, Except.bind]

theorem analyzeStatements_nil (cfg : AnalyzerConfig) (t : SymbolTable) :
    analyzeStatements cfg [] t = ([], t) := rfl

theorem analyzeStatements_cons_ok {cfg : AnalyzerConfig} {t t' : SymbolTable} {s : Stmt}
    (h : visit cfg t s = .ok t') (rest : List Stmt) :
    analyzeStatements cfg (s :: rest) t = analyzeStatements cfg rest t' := by
  simp [analyzeStatements, h]

theorem analyzeStatements_cons_err {cfg : AnalyzerConfig} {t : SymbolTable} {s : Stmt}
    {e : NoetaError} (h : visit cfg t s = .error e) (rest : List Stmt) :
    analyzeStatements cfg (s :: rest) t =
      (e :: (analyzeStatements cfg rest t).1, (analyzeStatements cfg rest t).2) := by
  simp [analyzeStatements, h]

/-- Core of the C1 equivalence: starting from any table whose schemas are
all unknown, analysis with type checking disabled returns no diagnostics
exactly when the amended alias condition holds of the table's names. -/
theorem analyze_clean_iff {cfg : AnalyzerConfig} (hTC : cfg.enable_type_check = false) :
    ∀ (stmts : List Stmt) (t : SymbolTable), allSchemasUnknown t →
      ((analyzeStatements cfg stmts t).1 = [] ↔
        amendedCleanFrom t.get_all_names stmts = true) := by
  intro stmts
  induction stmts with
  | nil =>
    intro t _
    simp [analyzeStatements_nil, amendedCleanFrom]
  | cons s rest ih =>
    intro t hinv
    cases s with
    | load n =>
      rw [analyzeStatements_cons_ok (visit_load_eq hTC t n) rest]
      have hinv' := @allSchemasUnknown_define _ hinv
        { name := n.aliasName, columns := [], source := some n.filepath } rfl n.aliasName
      rw [ih _ hinv',
        amendedCleanFrom_congr rest _ _ (mem_names_define t n.aliasName _)]
      simp [amendedCleanFrom, Stmt.checkedKind, Stmt.sources, Stmt.declares]
    | select n =>
      cases hl : t.lookup n.source_alias with
      | none =>
        obtain ⟨e, he⟩ := visit_select_err t n hl
        rw [analyzeStatements_cons_err he rest]
        have hns : n.source_alias ∉ t.get_all_names := by
          intro hmem
          have := (lookup_isSome_iff_mem t.datasets n.source_alias).mpr hmem
          rw [SymbolTable.lookup] at hl
          rw [hl] at this
          simp at this
        have hcont : t.get_all_names.contains n.source_alias = false := by
          rw [Bool.eq_false_iff]
          intro hc
          exact hns ((contains_iff_mem _ _).mp hc)
        simp [amendedCleanFrom, Stmt.checkedKind, Stmt.sources, hcont]
        exact fun hmemc => absurd hmemc hns
      | some info =>
        have hmem : n.source_alias ∈ t.get_all_names :=
          (lookup_isSome_iff_mem t.datasets n.source_alias).mp (by
            rw [show t.datasets.lookup n.source_alias = some info from hl]; rfl)
        have hcont : t.get_all_names.contains n.source_alias = true :=
          (contains_iff_mem _ _).mpr hmem
        cases ha : n.new_alias with
        | some a =>
          rw [analyzeStatements_cons_ok (visit_select_ok_some hinv hl ha) rest]
          have hinv' := @allSchemasUnknown_define _ hinv
            { name := a, columns := []
              source := some ("select from " ++ n.source_alias) } rfl a
          rw [ih _ hinv', amendedCleanFrom_congr rest _ _ (mem_names_define t a _)]
          simp [amendedCleanFrom, Stmt.checkedKind, Stmt.sources, Stmt.declares, hcont, ha]
          exact fun _ => hmem
        | none =>
          rw [analyzeStatements_cons_ok (visit_select_ok_none hinv hl ha) rest, ih _ hinv]
          simp [amendedCleanFrom, Stmt.checkedKind, Stmt.sources, Stmt.declares, hcont, ha]
          exact fun _ => hmem
    | filter n =>
      cases hl : t.lookup n.source_alias with
      | none =>
        obtain ⟨e, he⟩ := visit_filter_err t n hl
        rw [analyzeStatements_cons_err he rest]
        have hns : n.source_alias ∉ t.get_all_names := by
          intro hmem
          have := (lookup_isSome_iff_mem t.datasets n.source_alias).mpr hmem
          rw [SymbolTable.lookup] at hl
          rw [hl] at this
          simp at this
        have hcont : t.get_all_names.contains n.source_alias = false := by
          rw [Bool.eq_false_iff]
          intro hc
          exact hns ((contains_iff_mem _ _).mp hc)
        simp [amendedCleanFrom, Stmt.checkedKind, Stmt.sources, hcont]
        exact fun hmemc => absurd hmemc hns
      | some info =>
        have hmem : n.source_alias ∈ t.get_all_names :=
          (lookup_isSome_iff_mem t.datasets n.source_alias).mp (by
            rw [show t.datasets.lookup n.source_alias = some info from hl]; rfl)
        have hcont : t.get_all_names.contains n.source_alias = true :=
          (contains_iff_mem _ _).mpr hmem
        cases ha : n.new_alias with
        | some a =>
          rw [analyzeStatements_cons_ok (visit_filter_ok_some hl ha) rest]
          have hinfocols : info.columns = [] := allSchemasUnknown_lookup hinv hl
          have hinv' := @allSchemasUnknown_define _ hinv
            { name := a, columns := info.columns
              source := some ("filter from " ++ n.source_alias) } hinfocols a
          rw [ih _ hinv', amendedCleanFrom_congr rest _ _ (mem_names_define t a _)]
          simp [amendedCleanFrom, Stmt.checkedKind, Stmt.sources, Stmt.declares, hcont, ha]
          exact fun _ => hmem
        | none =>
          rw [analyzeStatements_cons_ok (visit_filter_ok_none hl ha) rest, ih _ hinv]
          simp [amendedCleanFrom, Stmt.checkedKind, Stmt.sources, Stmt.declares, hcont, ha]
          exact fun _ => hmem
    | describe n =>
      cases hl : t.lookup n.source_alias with
      | none =>
        obtain ⟨e, he⟩ := visit_describe_err t n hl
        rw [analyzeStatements_cons_err he rest]
        have hns : n.source_alias ∉ t.get_all_names := by
          intro hmem
          have := (lookup_isSome_iff_mem t.datasets n.source_alias).mpr hmem
          rw [SymbolTable.lookup] at hl
          rw [hl] at this
          simp at this
        have hcont : t.get_all_names.contains n.source_alias = false := by
          rw [Bool.eq_false_iff]
          intro hc
          exact hns ((contains_iff_mem _ _).mp hc)
        simp [amendedCleanFrom, Stmt.checkedKind, Stmt.sources, hcont]
        exact fun hmemc => absurd hmemc hns
      | some info =>
        have hmem : n.source_alias ∈ t.get_all_names :=
          (lookup_isSome_iff_mem t.datasets n.source_alias).mp (by
            rw [show t.datasets.lookup n.source_alias = some info from hl]; rfl)
        have hcont : t.get_all_names.contains n.source_alias = true :=
          (contains_iff_mem _ _).mpr hmem
        rw [analyzeStatements_cons_ok (visit_describe_ok hl) rest, ih _ hinv]
        simp [amendedCleanFrom, Stmt.checkedKind, Stmt.sources, Stmt.declares, hcont]
        exact fun _ => hmem
    | outliers n =>
      have hv : visit cfg t (.outliers n) = .ok t := rfl
      rw [analyzeStatements_cons_ok hv rest, ih _ hinv]
      simp [amendedCleanFrom, Stmt.checkedKind, Stmt.declares]

/- Properties of the stable distance sort and the suggestion engine. -/

theorem mem_insertByDist (x y : Nat × String) : ∀ (l : List (Nat × String)),
    y ∈ insertByDist l x ↔ y = x ∨ y ∈ l := by
  intro l
  induction l with
  | nil => simp [insertByDist]
  | cons hd tl ih =>
    simp only [insertByDist]
    split
    · simp only [List.mem_cons, ih]
      tauto
    · simp only [List.mem_cons]

theorem sorted_insertByDist (x : Nat × String) : ∀ (l : List (Nat × String)),
    List.Sorted (fun a b => a.1 ≤ b.1) l →
    List.Sorted (fun a b => a.1 ≤ b.1) (insertByDist l x) := by
  intro l
  induction l with
  | nil => intro _; simp [insertByDist]
  | cons hd tl ih =>
    intro hs
    rw [List.sorted_cons] at hs
    obtain ⟨hhd, htl⟩ := hs
    simp only [insertByDist]
    split
    · rename_i hle
      rw [List.sorted_cons]
      refine ⟨?_, ih htl⟩
      intro m hm
      rcases (mem_insertByDist x m tl).mp hm with h1 | h1
      · rw [h1]; exact hle
      · exact hhd m h1
    · rename_i hnle
      rw [List.sorted_cons]
      refine ⟨?_, List.sorted_cons.mpr ⟨hhd, htl⟩⟩
      intro m hm
      rcases List.mem_cons.mp hm with h1 | h1
      · rw [h1]; omega
      · exact le_trans (by omega) (hhd m h1)

theorem foldl_insertByDist_mem : ∀ (l acc : List (Nat × String)) (y : Nat × String),
    y ∈ l.foldl insertByDist acc ↔ y ∈ acc ∨ y ∈ l := by
  intro l
  induction l with
  | nil => simp
  | cons hd tl ih =>
    intro acc y
    simp only [List.foldl_cons, ih, mem_insertByDist, List.mem_cons]
    tauto

theorem foldl_insertByDist_sorted : ∀ (l acc : List (Nat × String)),
    List.Sorted (fun a b => a.1 ≤ b.1) acc →
    List.Sorted (fun a b => a.1 ≤ b.1) (l.foldl insertByDist acc) := by
  intro l
  induction l with
  | nil => intro acc h; exact h
  | cons hd tl ih =>
    intro acc h
    exact ih _ (sorted_insertByDist hd acc h)

theorem mem_sortByDist (l : List (Nat × String)) (y : Nat × String) :
    y ∈ sortByDist l ↔ y ∈ l := by
  simp [sortByDist, foldl_insertByDist_mem]

theorem sorted_sortByDist (l : List (Nat × String)) :
    List.Sorted (fun a b => a.1 ≤ b.1) (sortByDist l) :=
  foldl_insertByDist_sorted l [] (by simp)

/-- The first element of the stable distance sort is a member of minimal
key. -/
theorem sortByDist_head_min (l : List (Nat × String)) (hne : l ≠ []) :
    ∃ c cs, sortByDist l = c :: cs ∧ c ∈ l ∧ ∀ m ∈ l, c.1 ≤ m.1 := by
  cases hs : sortByDist l with
  | nil =>
    obtain ⟨y, hy⟩ := List.exists_mem_of_ne_nil l hne
    have := (mem_sortByDist l y).mpr hy
    rw [hs] at this
    exact absurd this (List.not_mem_nil y)
  | cons c cs =>
    refine ⟨c, cs, rfl, ?_, ?_⟩
    · exact (mem_sortByDist l c).mp (by rw [hs]; exact List.mem_cons_self _ _)
    · intro m hm
      have hm' : m ∈ c :: cs := by rw [← hs]; exact (mem_sortByDist l m).mpr hm
      have hsorted := sorted_sortByDist l
      rw [hs, List.sorted_cons] at hsorted
      rcases List.mem_cons.mp hm' with h1 | h1
      · rw [h1]
      · exact hsorted.1 m h1

/-- Membership in the candidate list of `suggest_similar`. -/
theorem mem_suggest_candidates (attempted : String) (available : List String)
    (max_distance : Nat) (y : Nat × String) :
    y ∈ available.filterMap (fun name =>
      let dist := levenshtein_distance (pyLower attempted) (pyLower name)
      if dist ≤ max_distance then some (dist, name) else none) ↔
    y.2 ∈ available ∧ y.1 = levenshtein_distance (pyLower attempted) (pyLower y.2) ∧
      y.1 ≤ max_distance := by
  rw [List.mem_filterMap]
  constructor
  · rintro ⟨a, ha, hf⟩
    by_cases hd : levenshtein_distance (pyLower attempted) (pyLower a) ≤ max_distance
    · simp only [if_pos hd] at hf
      injection hf with hf
      rw [← hf]
      exact ⟨ha, rfl, hd⟩
    · simp [if_neg hd] at hf
  · rintro ⟨hmem, hdist, hle⟩
    refine ⟨y.2, hmem, ?_⟩
    rw [← hdist, if_pos hle]

/-- `suggest_similar` with one suggestion returns a defined name of
minimal distance whenever some defined name is within the threshold. -/
theorem suggest_similar_nearest (attempted : String) (available : List String)
    (n₀ : String) (hn₀ : n₀ ∈ available)
    (hd₀ : levenshtein_distance (pyLower attempted) (pyLower n₀) ≤ 3) :
    ∃ n, n ∈ available ∧
      levenshtein_distance (pyLower attempted) (pyLower n) ≤ 3 ∧
      (∀ m ∈ available, levenshtein_distance (pyLower attempted) (pyLower n) ≤
        levenshtein_distance (pyLower attempted) (pyLower m)) ∧
      suggest_similar attempted available 1 3 = [n] := by
  have hav : available ≠ [] := List.ne_nil_of_mem hn₀
  set cands := available.filterMap (fun name =>
    let dist := levenshtein_distance (pyLower attempted) (pyLower name)
    if dist ≤ 3 then some (dist, name) else none) with hcands
  have hne : cands ≠ [] := by
    intro hnil
    have : (levenshtein_distance (pyLower attempted) (pyLower n₀), n₀) ∈ cands :=
      (mem_suggest_candidates attempted available 3 _).mpr ⟨hn₀, rfl, hd₀⟩
    rw [hnil] at this
    exact List.not_mem_nil _ this
  obtain ⟨c, cs, hsort, hcmem, hcmin⟩ := sortByDist_head_min cands hne
  obtain ⟨hc2, hc1, hc3⟩ := (mem_suggest_candidates attempted available 3 c).mp hcmem
  refine ⟨c.2, hc2, by rw [← hc1]; exact hc3, ?_, ?_⟩
  · intro m hm
    by_cases hdm : levenshtein_distance (pyLower attempted) (pyLower m) ≤ 3
    · have : (levenshtein_distance (pyLower attempted) (pyLower m), m) ∈ cands :=
        (mem_suggest_candidates attempted available 3 _).mpr ⟨hm, rfl, hdm⟩
      have := hcmin _ this
      rw [← hc1]
      exact this
    · rw [← hc1]
      omega
  · have hss : suggest_similar attempted available 1 3 =
        ((sortByDist cands).take 1).map Prod.snd := by
      simp only [suggest_similar]
      rw [if_neg hav]
    rw [hss, hsort]
    simp

/-- The failure of `_check_dataset_exists` on a checked statement kind:
the semantic diagnostic, its message, its hint, and its suggestion. -/
theorem visit_checked_missing (cfg : AnalyzerConfig) (t : SymbolTable) (s : Stmt)
    (hk : s.checkedKind = true) (X : String) (hX : X ∈ s.sources)
    (h : t.lookup X = none) :
    ∃ d, visit cfg t s = .error d ∧
      d.category = .SEMANTIC ∧
      d.message = "Dataset \x27" ++ X ++ "\x27 has not been loaded or created" ∧
      d.hint = some (if t.get_all_names ≠ [] then
          "Available datasets: " ++ String.intercalate ", " t.get_all_names
        else "No datasets have been loaded yet") ∧
      d.suggestion = suggest_dataset t X := by
  cases s with
  | load n => simp [Stmt.sources] at hX
  | outliers n => simp [Stmt.checkedKind] at hk
  | select n =>
    have hXeq : X = n.source_alias := by simpa [Stmt.sources] using hX
    subst hXeq
    have hv : visit cfg t (.select n) = .error (create_semantic_error
        ("Dataset \x27" ++ n.source_alias ++ "\x27 has not been loaded or created")
        n.line n.column (analyzer_get_source_line cfg n.line) n.source_alias.length
        (some (if t.get_all_names ≠ [] then
            "Available datasets: " ++ String.intercalate ", " t.get_all_names
          else "No datasets have been loaded yet"))
        (suggest_dataset t n.source_alias)) := by
      simp [visit, visit_select, check_dataset_exists, h, Bind.bind, Except.bind]
    exact ⟨_, hv, rfl, rfl, rfl, rfl⟩
  | filter n =>
    have hXeq : X = n.source_alias := by simpa [Stmt.sources] using hX
    subst hXeq
    have hv : visit cfg t (.filter n) = .error (create_semantic_error
        ("Dataset \x27" ++ n.source_alias ++ "\x27 has not been loaded or created")
        n.line n.column (analyzer_get_source_line cfg n.line) n.source_alias.length
        (some (if t.get_all_names ≠ [] then
            "Available datasets: " ++ String.intercalate ", " t.get_all_names
          else "No datasets have been loaded yet"))
        (suggest_dataset t n.source_alias)) := by
      simp [visit, visit_updated_filter, check_dataset_exists, h, Bind.bind, Except.bind]
    exact ⟨_, hv, rfl, rfl, rfl, rfl⟩
  | describe n =>
    have hXeq : X = n.source_alias := by simpa [Stmt.sources] using hX
    subst hXeq
    have hv : visit cfg t (.describe n) = .error (create_semantic_error
        ("Dataset \x27" ++ n.source_alias ++ "\x27 has not been loaded or created")
        n.line n.column (analyzer_get_source_line cfg n.line) n.source_alias.length
        (some (if t.get_all_names ≠ [] then
            "Available datasets: " ++ String.intercalate ", " t.get_all_names
          else "No datasets have been loaded yet"))
        (suggest_dataset t n.source_alias)) := by
      simp [visit, visit_describe, check_dataset_exists, h, Bind.bind, Except.bind]
    exact ⟨_, hv, rfl, rfl, rfl, rfl⟩

/-- Splitting the analysis of a concatenated program: diagnostics
concatenate and the table threads through. -/
theorem analyzeStatements_append (cfg : AnalyzerConfig) (xs ys : List Stmt) :
    ∀ (t : SymbolTable),
      analyzeStatements cfg (xs ++ ys) t =
        ((analyzeStatements cfg xs t).1 ++
          (analyzeStatements cfg ys (analyzeStatements cfg xs t).2).1,
         (analyzeStatements cfg ys (analyzeStatements cfg xs t).2).2) := by
  induction xs with
  | nil => intro t; simp [analyzeStatements_nil]
  | cons s rest ih =>
    intro t
    cases hv : visit cfg t s with
    | ok t' =>
      rw [List.cons_append, analyzeStatements_cons_ok hv, ih,
        analyzeStatements_cons_ok hv]
    | error e =>
      rw [List.cons_append, analyzeStatements_cons_err hv, ih,
        analyzeStatements_cons_err hv]
      simp

/- Claim C1. -/

/-- C1 (amended): for every program over the modelled statement kinds,
analyzed with type checking disabled and a fresh symbol table, the
semantic analyzer returns an empty diagnostic list iff every statement of
a kind the analyzer validates has its source aliases defined by an
earlier statement.  Statement kinds without a visitor (such as outliers)
are never checked; and with a fresh table and type checking disabled no
schema is ever known, so the column-existence clause of the original
claim is vacuous. -/
theorem C1_amended_clean_iff (source_code : String) (stmts : List Stmt) :
    (analyze (cfgNoTC source_code) ⟨stmts⟩ SymbolTable.new).1 = [] ↔
      amendedCleanFrom [] stmts = true := by
  have h := @analyze_clean_iff (cfgNoTC source_code) rfl stmts
    SymbolTable.new allSchemasUnknown_new
  simpa [analyze, SymbolTable.new, SymbolTable.get_all_names] using h

/-- C1 (counterexample): `outliers foo with method="iqr" columns {price}`
lexes and parses, references the undefined alias foo, yet analysis with a
fresh table and type checking disabled returns no diagnostics — the
claimed equivalence fails as stated, because `OutliersNode` has no
semantic visitor. -/
theorem C1_counterexample :
    parsePipeline outliersFooSrc = .ok ⟨[outliersFooStmt]⟩ ∧
    (analyze (cfgNoTC outliersFooSrc) ⟨[outliersFooStmt]⟩ SymbolTable.new).1 = [] ∧
    claimCleanFrom [] [outliersFooStmt] = false :=
  ⟨rfl, rfl, rfl⟩

/- Claim C2. -/

/-- C2 (amended): whenever a statement of a kind the analyzer validates
references a source alias that is undefined at its turn, analysis
produces a semantic diagnostic whose message names the alias, whose hint
lists the currently known aliases, and — when some known alias lies
within case-insensitive Levenshtein distance 3 of it — whose suggestion
names a nearest such alias. -/
theorem C2_amended_undefined_alias_diagnostic (source_code : String) (t : SymbolTable)
    (pre post : List Stmt) (s : Stmt) (hk : s.checkedKind = true)
    (X : String) (hX : X ∈ s.sources)
    (hundef : ((analyzeStatements (cfgNoTC source_code) pre t).2).lookup X = none) :
    ∃ d ∈ (analyzeStatements (cfgNoTC source_code) (pre ++ s :: post) t).1,
      d.category = .SEMANTIC ∧
      d.message = "Dataset \x27" ++ X ++ "\x27 has not been loaded or created" ∧
      d.hint = some
        (if ((analyzeStatements (cfgNoTC source_code) pre t).2).get_all_names ≠ [] then
          "Available datasets: " ++ String.intercalate ", "
            ((analyzeStatements (cfgNoTC source_code) pre t).2).get_all_names
        else "No datasets have been loaded yet") ∧
      ((∃ n ∈ ((analyzeStatements (cfgNoTC source_code) pre t).2).get_all_names,
          levenshtein_distance (pyLower X) (pyLower n) ≤ 3) →
        ∃ n ∈ ((analyzeStatements (cfgNoTC source_code) pre t).2).get_all_names,
          levenshtein_distance (pyLower X) (pyLower n) ≤ 3 ∧
          (∀ m ∈ ((analyzeStatements (cfgNoTC source_code) pre t).2).get_all_names,
            levenshtein_distance (pyLower X) (pyLower n) ≤
              levenshtein_distance (pyLower X) (pyLower m)) ∧
          d.suggestion = some ("Did you mean \x27" ++ n ++ "\x27?")) := by
  obtain ⟨d, hvd, hcat, hmsg, hhint, hsugg⟩ :=
    visit_checked_missing (cfgNoTC source_code)
      ((analyzeStatements (cfgNoTC source_code) pre t).2) s hk X hX hundef
  refine ⟨d, ?_, hcat, hmsg, hhint, ?_⟩
  · rw [analyzeStatements_append, analyzeStatements_cons_err hvd]
    exact List.mem_append_right _ (List.mem_cons_self _ _)
  · rintro ⟨n₀, hn₀, hd₀⟩
    obtain ⟨n, hn, hdn, hmin, hss⟩ := suggest_similar_nearest X
      ((analyzeStatements (cfgNoTC source_code) pre t).2).get_all_names n₀ hn₀ hd₀
    refine ⟨n, hn, hdn, hmin, ?_⟩
    rw [hsugg]
    have hav : ((analyzeStatements (cfgNoTC source_code) pre t).2).get_all_names ≠ [] :=
      List.ne_nil_of_mem hn₀
    simp only [suggest_dataset]
    rw [if_neg hav, hss]

/-- C2 (witness): in `load "x.csv" as sales` followed by
`select sale with price as r`, the reference to sale is undefined, and the
amended theorem yields the semantic diagnostic suggesting sales. -/
theorem C2_amended_witness :
    Stmt.checkedKind selectSaleStmt = true ∧
    "sale" ∈ selectSaleStmt.sources ∧
    ((analyzeStatements (cfgNoTC "") [loadSalesStmt] SymbolTable.new).2).lookup "sale" =
      none ∧
    (∃ d ∈ (analyzeStatements (cfgNoTC "")
        ([loadSalesStmt] ++ selectSaleStmt :: []) SymbolTable.new).1,
      d.category = .SEMANTIC ∧
      d.message = "Dataset \x27sale\x27 has not been loaded or created" ∧
      d.hint = some
        (if ((analyzeStatements (cfgNoTC "") [loadSalesStmt] SymbolTable.new).2).get_all_names ≠ [] then
          "Available datasets: " ++ String.intercalate ", "
            ((analyzeStatements (cfgNoTC "") [loadSalesStmt] SymbolTable.new).2).get_all_names
        else "No datasets have been loaded yet") ∧
      ((∃ n ∈ ((analyzeStatements (cfgNoTC "") [loadSalesStmt] SymbolTable.new).2).get_all_names,
          levenshtein_distance (pyLower "sale") (pyLower n) ≤ 3) →
        ∃ n ∈ ((analyzeStatements (cfgNoTC "") [loadSalesStmt] SymbolTable.new).2).get_all_names,
          levenshtein_distance (pyLower "sale") (pyLower n) ≤ 3 ∧
          (∀ m ∈ ((analyzeStatements (cfgNoTC "") [loadSalesStmt] SymbolTable.new).2).get_all_names,
            levenshtein_distance (pyLower "sale") (pyLower n) ≤
              levenshtein_distance (pyLower "sale") (pyLower m)) ∧
          d.suggestion = some ("Did you mean \x27" ++ n ++ "\x27?"))) :=
  ⟨rfl, by simp [selectSaleStmt, Stmt.sources], rfl,
    C2_amended_undefined_alias_diagnostic "" SymbolTable.new [loadSalesStmt] []
      selectSaleStmt rfl "sale" (by simp [selectSaleStmt, Stmt.sources]) rfl⟩

/-- C2 (counterexample): `outliers zzz with method="iqr" columns {price}`
is a valid program referencing the undefined alias zzz, yet analysis with
a fresh table produces no diagnostic at all — no semantic visitor exists
for the statement kind, falsifying the claim as stated. -/
theorem C2_counterexample :
    parsePipeline outliersZzzSrc = .ok ⟨[outliersZzzStmt]⟩ ∧
    Stmt.sources outliersZzzStmt = ["zzz"] ∧
    SymbolTable.new.lookup "zzz" = none ∧
    (analyze (cfgNoTC outliersZzzSrc) ⟨[outliersZzzStmt]⟩ SymbolTable.new).1 = [] :=
  ⟨rfl, rfl, rfl, rfl⟩

/- Claim C3. -/

set_option maxRecDepth 16384 in
/-- C3: the expression sub-parser cannot honour the claimed arithmetic
precedence.  On `1 + 2 * 3 ** 2` — which lexes fine — the multiplicative
level evaluates the non-existent enum member `TokenType.MULTIPLY`
(noeta_parser.py line 2151) and the parse raises `AttributeError:
MULTIPLY` instead of returning any tree at all. -/
theorem C3_multiplicative_raises :
    (tokenize exprPrecSrc).isOk = true ∧
    exprPipeline exprPrecSrc = .error (.pyAttributeError "MULTIPLY") :=
  ⟨rfl, rfl⟩

/- Claim C4. -/

set_option maxRecDepth 16384 in
/-- C4: the two-character operators `==`, `!=`, `<=`, `>=` are matched
greedily, but `**` is not: the lexer's `**` branch follows the
one-character `*` branch (noeta_lexer.py lines 918-934) and is dead, so
`**` lexes as two STAR tokens rather than one EXPONENT token. -/
theorem C4_greedy_except_exponent :
    tokenize "==" = .ok [⟨.EQ, .vstr "==", 1, 1⟩, ⟨.EOF, .vnone, 1, 3⟩] ∧
    tokenize "!=" = .ok [⟨.NEQ, .vstr "!=", 1, 1⟩, ⟨.EOF, .vnone, 1, 3⟩] ∧
    tokenize "<=" = .ok [⟨.LTE, .vstr "<=", 1, 1⟩, ⟨.EOF, .vnone, 1, 3⟩] ∧
    tokenize ">=" = .ok [⟨.GTE, .vstr ">=", 1, 1⟩, ⟨.EOF, .vnone, 1, 3⟩] ∧
    tokenize "**" = .ok [⟨.STAR, .vstr "*", 1, 1⟩, ⟨.STAR, .vstr "*", 1, 2⟩,
      ⟨.EOF, .vnone, 1, 3⟩] :=
  ⟨rfl, rfl, rfl, rfl, rfl⟩

/- Claim C5. -/

set_option maxRecDepth 16384 in
/-- C5: a valid single-line statement does parse to exactly one node, but
the node's line and column are 0, not the leading keyword token's line 1 /
column 1: the parser never calls `set_position`, so `ASTNode.__post_init__`
defaults survive. -/
theorem C5_position_not_propagated :
    parsePipeline loadXSrc = .ok ⟨[loadSalesStmt]⟩ ∧
    (∃ tok rest, tokenize loadXSrc = .ok (tok :: rest) ∧
      tok.type = .LOAD ∧ tok.line = 1 ∧ tok.column = 1) ∧
    Stmt.lineOf loadSalesStmt = 0 ∧ Stmt.columnOf loadSalesStmt = 0 :=
  ⟨rfl, ⟨_, _, rfl, rfl, rfl, rfl⟩, rfl, rfl⟩

/- Claim C6. -/

set_option maxRecDepth 16384 in
/-- C6: an unterminated string literal is tolerated by the lexer:
tokenizing `load "unterminated` succeeds with no lexical diagnostic
(`read_string` simply stops at end of input), and compilation proceeds
into the parser, which fails with a SYNTAX — not LEXER — diagnostic. -/
theorem C6_unterminated_string_tolerated :
    tokenize untermSrc = .ok
      [⟨.LOAD, .vstr "load", 1, 1⟩, ⟨.STRING_LITERAL, .vstr "unterminated", 1, 6⟩,
       ⟨.EOF, .vnone, 1, 19⟩] ∧
    (∃ d, compileDefault false untermSrc = .error (.noetaDiag d) ∧
      d.category = .SYNTAX) :=
  ⟨rfl, ⟨_, rfl, rfl⟩⟩

/- Claim C7. -/

set_option maxRecDepth 16384 in
/-- C7: `filter d where price between 10 and 100 and category in
["A", "B"] as f` parses to exactly one statement whose condition is
AND(BETWEEN(price, 10, 100), IN(category, ["A", "B"])), and whenever d is
defined in the symbol table (unknown schema or otherwise) analysis of the
program returns zero diagnostics. -/
theorem C7_filter_between_in_clean :
    parsePipeline filterDSrc = .ok ⟨[filterDStmt]⟩ ∧
    filterDNode.condition = .binary
      (.between "price" (.vnum (.int 10)) (.vnum (.int 100))) "and"
      (.inCond "category" [.vstr "A", .vstr "B"]) ∧
    ∀ (t : SymbolTable) (info : DatasetInfo), t.lookup "d" = some info →
      (analyze (cfgNoTC filterDSrc) ⟨[filterDStmt]⟩ t).1 = [] := by
  refine ⟨rfl, rfl, ?_⟩
  intro t info h
  have hv := @visit_filter_ok_some (cfgNoTC filterDSrc) t filterDNode info h "f" rfl
  show (analyzeStatements (cfgNoTC filterDSrc) [filterDStmt] t).1 = []
  rw [show filterDStmt = Stmt.filter filterDNode from rfl,
    analyzeStatements_cons_ok hv, analyzeStatements_nil]

set_option maxRecDepth 16384 in
/-- C7 (witness): with d defined, unknown schema, the analysis of the
filter program is clean. -/
theorem C7_witness :
    tableWithD.lookup "d" = some { name := "d", columns := [], source := none } ∧
    (analyze (cfgNoTC filterDSrc) ⟨[filterDStmt]⟩ tableWithD).1 = [] :=
  ⟨rfl, C7_filter_between_in_clean.2.2 tableWithD _ rfl⟩

/- Claim C8. -/

/-- C8: when the analyzer collects a non-empty diagnostic list, the
compile entry point fails with exactly one error: the single diagnostic
itself when exactly one was collected (`create_multi_error` passes a
singleton through unchanged), otherwise the aggregate whose message is
the formatted multi-error report of all of them. -/
theorem C8_single_error_raised (supportsColor enable_type_check : Bool)
    (probe : String → Option String → List (String × ColumnInfo))
    (source_code : String) (symbol_table : Option SymbolTable)
    (tokens : List Token) (ast : ProgramNode)
    (htok : tokenize source_code = .ok tokens)
    (hparse : parseProgram tokens source_code = .ok ast)
    (herr : (analyze
        { source_code := source_code, enable_type_check := enable_type_check
          probe := probe } ast (symbol_table.getD SymbolTable.new)).1 ≠ []) :
    (compile_noeta supportsColor enable_type_check probe source_code symbol_table).1 =
      .error (.noetaDiag (create_multi_error supportsColor
        (analyze
          { source_code := source_code, enable_type_check := enable_type_check
            probe := probe } ast (symbol_table.getD SymbolTable.new)).1)) := by
  unfold compile_noeta
  rw [htok]
  dsimp only
  rw [hparse]
  dsimp only
  rw [show analyze
      { source_code := source_code, enable_type_check := enable_type_check
        probe := probe } ast (symbol_table.getD SymbolTable.new) =
      ((analyze
        { source_code := source_code, enable_type_check := enable_type_check
          probe := probe } ast (symbol_table.getD SymbolTable.new)).1,
       (analyze
        { source_code := source_code, enable_type_check := enable_type_check
          probe := probe } ast (symbol_table.getD SymbolTable.new)).2) from rfl]
  dsimp only
  cases herrs : (analyze
      { source_code := source_code, enable_type_check := enable_type_check
        probe := probe } ast (symbol_table.getD SymbolTable.new)).1 with
  | nil => exact absurd herrs herr
  | cons e rest =>
    cases rest with
    | nil => simp [create_multi_error]
    | cons e2 rest2 => simp [create_multi_error]

set_option maxRecDepth 16384 in
/-- C8 (witness): `describe a` then `describe b` collects two semantic
diagnostics; compilation fails with the single aggregate error. -/
theorem C8_witness :
    (compile_noeta false false (fun _ _ => []) twoUndefSrc none).1 =
      .error (.noetaDiag (create_multi_error false
        (analyze
          { source_code := twoUndefSrc, enable_type_check := false
            probe := fun _ _ => [] }
          ⟨[describeAStmt, describeBStmt]⟩
          ((none : Option SymbolTable).getD SymbolTable.new)).1)) :=
  C8_single_error_raised false false (fun _ _ => []) twoUndefSrc none _ _ rfl rfl
    (by intro hc; exact List.noConfusion hc)

/- Claim C9. -/

/-- C9: compiling the same source text twice, each time with a fresh
symbol table and type checking disabled, yields identical outcomes: the
compile path is a pure function of the source text and starting table. -/
theorem C9_deterministic (supportsColor : Bool) (source_code : String)
    (t1 t2 : SymbolTable) (h1 : t1 = SymbolTable.new) (h2 : t2 = SymbolTable.new) :
    (compile_noeta supportsColor false (fun _ _ => []) source_code (some t1)).1 =
      (compile_noeta supportsColor false (fun _ _ => []) source_code (some t2)).1 := by
  subst h1; subst h2; rfl

/-- C9 (witness): two compilations of `load "data.csv" as sales` from
fresh tables agree. -/
theorem C9_witness :
    (compile_noeta false false (fun _ _ => []) "load \"data.csv\" as sales"
        (some SymbolTable.new)).1 =
      (compile_noeta false false (fun _ _ => []) "load \"data.csv\" as sales"
        (some SymbolTable.new)).1 :=
  C9_deterministic false "load \"data.csv\" as sales" SymbolTable.new SymbolTable.new
    rfl rfl

/- Claim C10. -/

/-- Any RuntimeError that `wrapPyErr` (the `except` ladder at the bottom
of `compile_noeta`) produces has the claimed message prefix. -/
theorem wrapPyErr_runtimeError_prefix (e : PyErr) (m : String)
    (h : wrapPyErr e = .runtimeError m) :
    ∃ rest, m = "Unexpected compilation error" ++ rest := by
  cases e with
  | noeta d => exact absurd h (by simp [wrapPyErr])
  | modelGap w => exact absurd h (by simp [wrapPyErr])
  | pySyntaxError s =>
    refine ⟨": " ++ PyErr.pyStr (.pySyntaxError s) ++ "\nPlease report this as a bug", ?_⟩
    simp only [wrapPyErr, CompileErr.runtimeError.injEq] at h
    rw [← h, ← String.append_assoc, ← String.append_assoc]
    rfl
  | pyValueError s =>
    refine ⟨": " ++ PyErr.pyStr (.pyValueError s) ++ "\nPlease report this as a bug", ?_⟩
    simp only [wrapPyErr, CompileErr.runtimeError.injEq] at h
    rw [← h, ← String.append_assoc, ← String.append_assoc]
    rfl
  | pyAttributeError s =>
    refine ⟨": " ++ PyErr.pyStr (.pyAttributeError s) ++ "\nPlease report this as a bug", ?_⟩
    simp only [wrapPyErr, CompileErr.runtimeError.injEq] at h
    rw [← h, ← String.append_assoc, ← String.append_assoc]
    rfl
  | pyTypeError s =>
    refine ⟨": " ++ PyErr.pyStr (.pyTypeError s) ++ "\nPlease report this as a bug", ?_⟩
    simp only [wrapPyErr, CompileErr.runtimeError.injEq] at h
    rw [← h, ← String.append_assoc, ← String.append_assoc]
    rfl

/-- Every RuntimeError escaping `compile_noeta` carries the wrapper's
message prefix (the wrapper is the only producer of that error kind). -/
theorem compile_runtimeError_prefix (supportsColor enable_type_check : Bool)
    (probe : String → Option String → List (String × ColumnInfo))
    (source_code : String) (symbol_table : Option SymbolTable) (m : String)
    (h : (compile_noeta supportsColor enable_type_check probe source_code
        symbol_table).1 = .error (.runtimeError m)) :
    ∃ rest, m = "Unexpected compilation error" ++ rest := by
  unfold compile_noeta at h
  cases htok : tokenize source_code with
  | error e =>
    rw [htok] at h
    dsimp only at h
    exact wrapPyErr_runtimeError_prefix e m (by simpa using h)
  | ok tokens =>
    rw [htok] at h
    dsimp only at h
    cases hp : parseProgram tokens source_code with
    | error e =>
      rw [hp] at h
      dsimp only at h
      exact wrapPyErr_runtimeError_prefix e m (by simpa using h)
    | ok ast =>
      rw [hp] at h
      dsimp only at h
      rw [show analyze
          { source_code := source_code, enable_type_check := enable_type_check
            probe := probe } ast (symbol_table.getD SymbolTable.new) =
          ((analyze
            { source_code := source_code, enable_type_check := enable_type_check
              probe := probe } ast (symbol_table.getD SymbolTable.new)).1,
           (analyze
            { source_code := source_code, enable_type_check := enable_type_check
              probe := probe } ast (symbol_table.getD SymbolTable.new)).2) from rfl] at h
      dsimp only at h
      cases herrs : (analyze
          { source_code := source_code, enable_type_check := enable_type_check
            probe := probe } ast (symbol_table.getD SymbolTable.new)).1 with
      | nil =>
        rw [herrs] at h
        simp at h
      | cons e rest =>
        rw [herrs] at h
        cases rest with
        | nil => simp at h
        | cons e2 rest2 => simp at h

/-- C10: outside the embedding's model gaps, the compile entry point
either returns generated text, re-raises a compiler diagnostic
(`NoetaError`) as-is, or wraps any other exception in a RuntimeError
whose message starts with "Unexpected compilation error"; no other error
kind escapes. -/
theorem C10_error_kinds (supportsColor enable_type_check : Bool)
    (probe : String → Option String → List (String × ColumnInfo))
    (source_code : String) (symbol_table : Option SymbolTable)
    (h : isModelGapResult (compile_noeta supportsColor enable_type_check probe
        source_code symbol_table).1 = false) :
    (∃ code, (compile_noeta supportsColor enable_type_check probe source_code
        symbol_table).1 = .ok code) ∨
    (∃ d, (compile_noeta supportsColor enable_type_check probe source_code
        symbol_table).1 = .error (.noetaDiag d)) ∨
    (∃ rest, (compile_noeta supportsColor enable_type_check probe source_code
        symbol_table).1 =
      .error (.runtimeError ("Unexpected compilation error" ++ rest))) := by
  cases hr : (compile_noeta supportsColor enable_type_check probe source_code
      symbol_table).1 with
  | ok code => exact .inl ⟨code, rfl⟩
  | error err =>
    cases err with
    | noetaDiag d => exact .inr (.inl ⟨d, rfl⟩)
    | runtimeError m =>
      obtain ⟨rest, hrest⟩ := compile_runtimeError_prefix supportsColor
        enable_type_check probe source_code symbol_table m hr
      exact .inr (.inr ⟨rest, by rw [hrest]⟩)
    | modelGap w =>
      rw [hr] at h
      simp [isModelGapResult] at h

set_option maxRecDepth 16384 in
/-- C10 (witness): `1.2.3` makes the lexer's float conversion raise
ValueError; the compile entry point surfaces it as the wrapped
RuntimeError, one of the two permitted error kinds. -/
theorem C10_witness :
    isModelGapResult (compile_noeta false false (fun _ _ => []) "1.2.3" none).1 =
      false ∧
    ((∃ code, (compile_noeta false false (fun _ _ => []) "1.2.3" none).1 =
        .ok code) ∨
     (∃ d, (compile_noeta false false (fun _ _ => []) "1.2.3" none).1 =
        .error (.noetaDiag d)) ∨
     (∃ rest, (compile_noeta false false (fun _ _ => []) "1.2.3" none).1 =
        .error (.runtimeError ("Unexpected compilation error" ++ rest)))) :=
  ⟨rfl, C10_error_kinds false false (fun _ _ => []) "1.2.3" none rfl⟩
